import Mathlib

/-!
# IoTHubClient facade (`c/iothub_client/src/iothub_client.c`)

A shallow embedding of the multithreaded facade over the lower-layer IoT
client.  Handles are machine pointers (`Nat`, `NULL = 0`).  The memory cell a
client handle points to is passed explicitly (`inst`) and the updated cell is
returned.  Every function of another module (lock, thread API, allocator,
shared transport, lower-layer client) is a field of `Env`: the answer that
collaborator gives when it is called with the given arguments.  Each facade
function returns, next to its result, the ordered list of the calls it made
(`Event`).  `LogError` diagnostics are not recorded.
-/

namespace IoTHubClient

/-- The null pointer. -/
abbrev NULL : Nat := 0

/-- Modelled from the spec: the result codes of `iothub_client_ll.h` (the header
is not part of the sources): OK, INVALID_ARG, ERROR, and any further code the
lower layer may produce. -/
inductive IOTHUB_CLIENT_RESULT where
  | IOTHUB_CLIENT_OK
  | IOTHUB_CLIENT_INVALID_ARG
  | IOTHUB_CLIENT_ERROR
  | IOTHUB_CLIENT_other (code : Nat)
  deriving DecidableEq, Repr

/-- Modelled from the spec: the result of `Lock`/`Unlock` (`lock.h` is not part
of the sources): `LOCK_OK`, or any other code. -/
inductive LOCK_RESULT where
  | LOCK_OK
  | LOCK_other (code : Nat)
  deriving DecidableEq, Repr

/-- Modelled from the spec: the result of the thread API (`threadapi.h` is not
part of the sources): `THREADAPI_OK`, or any other code. -/
inductive THREADAPI_RESULT where
  | THREADAPI_OK
  | THREADAPI_other (code : Nat)
  deriving DecidableEq, Repr

/-- The thread entry points defined in this file. -/
inductive THREAD_START_FUNC where
  | ScheduleWork_Thread
  deriving DecidableEq, Repr

/-- The struct `IOTHUB_CLIENT_INSTANCE`. -/
structure IOTHUB_CLIENT_INSTANCE where
  IoTHubClientLLHandle : Nat
  TransportHandle : Nat
  ThreadHandle : Nat
  LockHandle : Nat
  StopThread : Int
  blobThreadsToBeJoined : Nat
  deriving DecidableEq, Repr

/-- Modelled from the spec: the fields of `IOTHUB_CLIENT_CONFIG` that
`IoTHubClient_CreateWithTransport` reads (the header is not part of the
sources); `rest` stands for the fields it does not read. -/
structure IOTHUB_CLIENT_CONFIG where
  protocol : Nat
  deviceId : Nat
  deviceKey : Nat
  deviceSasToken : Nat
  rest : Nat
  deriving DecidableEq, Repr

/-- Modelled from the spec: the fields of `IOTHUB_CLIENT_DEVICE_CONFIG` that
`IoTHubClient_CreateWithTransport` fills in. -/
structure IOTHUB_CLIENT_DEVICE_CONFIG where
  protocol : Nat
  transportHandle : Nat
  deviceId : Nat
  deviceKey : Nat
  deviceSasToken : Nat
  deriving DecidableEq, Repr

/-- One observable effect of the facade: a call into another module with its
arguments (and, for `Lock`, its result), or a store to the `StopThread` flag
that the worker thread polls. -/
inductive Event where
  | malloc (r : Nat)
  | free (p : Nat)
  | Lock_Init (r : Nat)
  | Lock_Deinit (h : Nat)
  | Lock (h : Nat) (r : LOCK_RESULT)
  | Unlock (h : Nat)
  | ThreadAPI_Create (func : THREAD_START_FUNC) (arg : Nat)
  | ThreadAPI_Join (h : Nat)
  | ThreadAPI_Sleep (ms : Nat)
  | StoreStopThread (v : Int)
  | IoTHubTransport_GetLock (t : Nat)
  | IoTHubTransport_GetLLTransport (t : Nat)
  | IoTHubTransport_StartWorkerThread (t : Nat) (c : Nat)
  | IoTHubTransport_SignalEndWorkerThread (t : Nat) (c : Nat)
  | IoTHubTransport_JoinWorkerThread (t : Nat) (c : Nat)
  | IoTHubClient_LL_Create (config : Option IOTHUB_CLIENT_CONFIG)
  | IoTHubClient_LL_CreateFromConnectionString (cs : String) (protocol : Nat)
  | IoTHubClient_LL_CreateWithTransport (config : IOTHUB_CLIENT_DEVICE_CONFIG)
  | IoTHubClient_LL_Destroy (h : Nat)
  | IoTHubClient_LL_SendEventAsync (h msg cb ctx : Nat)
  | IoTHubClient_LL_GetSendStatus (h status : Nat)
  | IoTHubClient_LL_SetMessageCallback (h cb ctx : Nat)
  | IoTHubClient_LL_GetLastMessageReceiveTime (h time : Nat)
  | IoTHubClient_LL_SetOption (h name value : Nat)
  | IoTHubClient_LL_DoWork (h : Nat)
  deriving DecidableEq, Repr

/-- The collaborators of the facade during one facade call (or one iteration of
the worker loop): what each external function answers for given arguments.
`malloc` gives the address (NULL on failure) and the indeterminate contents of
the fresh cell; `ThreadAPI_Create` gives its result and the handle it stores. -/
structure Env where
  malloc : Nat × IOTHUB_CLIENT_INSTANCE
  Lock_Init : Nat
  Lock : Nat → LOCK_RESULT
  Unlock : Nat → LOCK_RESULT
  ThreadAPI_Create : THREAD_START_FUNC → Nat → THREADAPI_RESULT × Nat
  ThreadAPI_Join : Nat → THREADAPI_RESULT
  IoTHubTransport_GetLock : Nat → Nat
  IoTHubTransport_GetLLTransport : Nat → Nat
  IoTHubTransport_StartWorkerThread : Nat → Nat → IOTHUB_CLIENT_RESULT
  IoTHubTransport_SignalEndWorkerThread : Nat → Nat → Bool
  IoTHubClient_LL_Create : Option IOTHUB_CLIENT_CONFIG → Nat
  IoTHubClient_LL_CreateFromConnectionString : String → Nat → Nat
  IoTHubClient_LL_CreateWithTransport : IOTHUB_CLIENT_DEVICE_CONFIG → Nat
  IoTHubClient_LL_SendEventAsync : Nat → Nat → Nat → Nat → IOTHUB_CLIENT_RESULT
  IoTHubClient_LL_GetSendStatus : Nat → Nat → IOTHUB_CLIENT_RESULT
  IoTHubClient_LL_SetMessageCallback : Nat → Nat → Nat → IOTHUB_CLIENT_RESULT
  IoTHubClient_LL_GetLastMessageReceiveTime : Nat → Nat → IOTHUB_CLIENT_RESULT
  IoTHubClient_LL_SetOption : Nat → Nat → Nat → IOTHUB_CLIENT_RESULT

/-- What a facade operation on an existing handle yields: its result code, the
contents of the instance cell afterwards, and the calls it made in order. -/
structure Outcome where
  result : IOTHUB_CLIENT_RESULT
  inst : IOTHUB_CLIENT_INSTANCE
  trace : List Event
  deriving DecidableEq, Repr

/-- What a constructor yields: the handle (NULL on failure), the contents of
the cell it points to (none when no cell is live), and the calls made in order. -/
structure Created where
  handle : Nat
  inst : Option IOTHUB_CLIENT_INSTANCE
  trace : List Event
  deriving DecidableEq, Repr

open IOTHUB_CLIENT_RESULT LOCK_RESULT THREADAPI_RESULT

/-- The function `StartWorkerThreadIfNeeded`; `self` is the address of `inst`. -/
def StartWorkerThreadIfNeeded (env : Env) (self : Nat) (inst : IOTHUB_CLIENT_INSTANCE) : Outcome :=
  if inst.TransportHandle = NULL then
    if inst.ThreadHandle = NULL then
      let inst1 := { inst with StopThread := 0 }
      let created := env.ThreadAPI_Create THREAD_START_FUNC.ScheduleWork_Thread self
      let inst2 := { inst1 with ThreadHandle := created.2 }
      let calls := [Event.StoreStopThread 0, Event.ThreadAPI_Create THREAD_START_FUNC.ScheduleWork_Thread self]
      if created.1 ≠ THREADAPI_OK then
        ⟨IOTHUB_CLIENT_ERROR, { inst2 with ThreadHandle := NULL }, calls⟩
      else
        ⟨IOTHUB_CLIENT_OK, inst2, calls⟩
    else
      ⟨IOTHUB_CLIENT_OK, inst, []⟩
  else
    ⟨env.IoTHubTransport_StartWorkerThread inst.TransportHandle self, inst,
      [Event.IoTHubTransport_StartWorkerThread inst.TransportHandle self]⟩

/-- The function `IoTHubClient_SendEventAsync`. -/
def IoTHubClient_SendEventAsync (env : Env) (iotHubClientHandle : Nat)
    (inst : IOTHUB_CLIENT_INSTANCE)
    (eventMessageHandle eventConfirmationCallback userContextCallback : Nat) : Outcome :=
  if iotHubClientHandle = NULL then
    ⟨IOTHUB_CLIENT_INVALID_ARG, inst, []⟩
  else
    let locked := env.Lock inst.LockHandle
    if locked ≠ LOCK_OK then
      ⟨IOTHUB_CLIENT_ERROR, inst, [Event.Lock inst.LockHandle locked]⟩
    else
      let started := StartWorkerThreadIfNeeded env iotHubClientHandle inst
      if started.result ≠ IOTHUB_CLIENT_OK then
        ⟨IOTHUB_CLIENT_ERROR, started.inst,
          [Event.Lock inst.LockHandle locked] ++ started.trace
            ++ [Event.Unlock started.inst.LockHandle]⟩
      else
        ⟨env.IoTHubClient_LL_SendEventAsync started.inst.IoTHubClientLLHandle
            eventMessageHandle eventConfirmationCallback userContextCallback,
          started.inst,
          [Event.Lock inst.LockHandle locked] ++ started.trace
            ++ [Event.IoTHubClient_LL_SendEventAsync started.inst.IoTHubClientLLHandle
                  eventMessageHandle eventConfirmationCallback userContextCallback,
                Event.Unlock started.inst.LockHandle]⟩

/-- The function `IoTHubClient_GetSendStatus`. -/
def IoTHubClient_GetSendStatus (env : Env) (iotHubClientHandle : Nat)
    (inst : IOTHUB_CLIENT_INSTANCE) (iotHubClientStatus : Nat) : Outcome :=
  if iotHubClientHandle = NULL then
    ⟨IOTHUB_CLIENT_INVALID_ARG, inst, []⟩
  else
    let locked := env.Lock inst.LockHandle
    if locked ≠ LOCK_OK then
      ⟨IOTHUB_CLIENT_ERROR, inst, [Event.Lock inst.LockHandle locked]⟩
    else
      ⟨env.IoTHubClient_LL_GetSendStatus inst.IoTHubClientLLHandle iotHubClientStatus, inst,
        [Event.Lock inst.LockHandle locked,
         Event.IoTHubClient_LL_GetSendStatus inst.IoTHubClientLLHandle iotHubClientStatus,
         Event.Unlock inst.LockHandle]⟩

/-- The function `IoTHubClient_SetMessageCallback`. -/
def IoTHubClient_SetMessageCallback (env : Env) (iotHubClientHandle : Nat)
    (inst : IOTHUB_CLIENT_INSTANCE) (messageCallback userContextCallback : Nat) : Outcome :=
  if iotHubClientHandle = NULL then
    ⟨IOTHUB_CLIENT_INVALID_ARG, inst, []⟩
  else
    let locked := env.Lock inst.LockHandle
    if locked ≠ LOCK_OK then
      ⟨IOTHUB_CLIENT_ERROR, inst, [Event.Lock inst.LockHandle locked]⟩
    else
      let started := StartWorkerThreadIfNeeded env iotHubClientHandle inst
      if started.result ≠ IOTHUB_CLIENT_OK then
        ⟨IOTHUB_CLIENT_ERROR, started.inst,
          [Event.Lock inst.LockHandle locked] ++ started.trace
            ++ [Event.Unlock started.inst.LockHandle]⟩
      else
        ⟨env.IoTHubClient_LL_SetMessageCallback started.inst.IoTHubClientLLHandle
            messageCallback userContextCallback,
          started.inst,
          [Event.Lock inst.LockHandle locked] ++ started.trace
            ++ [Event.IoTHubClient_LL_SetMessageCallback started.inst.IoTHubClientLLHandle
                  messageCallback userContextCallback,
                Event.Unlock started.inst.LockHandle]⟩

/-- The function `IoTHubClient_GetLastMessageReceiveTime`. -/
def IoTHubClient_GetLastMessageReceiveTime (env : Env) (iotHubClientHandle : Nat)
    (inst : IOTHUB_CLIENT_INSTANCE) (lastMessageReceiveTime : Nat) : Outcome :=
  if iotHubClientHandle = NULL then
    ⟨IOTHUB_CLIENT_INVALID_ARG, inst, []⟩
  else
    let locked := env.Lock inst.LockHandle
    if locked ≠ LOCK_OK then
      ⟨IOTHUB_CLIENT_ERROR, inst, [Event.Lock inst.LockHandle locked]⟩
    else
      ⟨env.IoTHubClient_LL_GetLastMessageReceiveTime inst.IoTHubClientLLHandle
          lastMessageReceiveTime, inst,
        [Event.Lock inst.LockHandle locked,
         Event.IoTHubClient_LL_GetLastMessageReceiveTime inst.IoTHubClientLLHandle
           lastMessageReceiveTime,
         Event.Unlock inst.LockHandle]⟩

/-- The function `IoTHubClient_SetOption`. -/
def IoTHubClient_SetOption (env : Env) (iotHubClientHandle : Nat)
    (inst : IOTHUB_CLIENT_INSTANCE) (optionName value : Nat) : Outcome :=
  if iotHubClientHandle = NULL ∨ optionName = NULL ∨ value = NULL then
    ⟨IOTHUB_CLIENT_INVALID_ARG, inst, []⟩
  else
    let locked := env.Lock inst.LockHandle
    if locked ≠ LOCK_OK then
      ⟨IOTHUB_CLIENT_ERROR, inst, [Event.Lock inst.LockHandle locked]⟩
    else
      ⟨env.IoTHubClient_LL_SetOption inst.IoTHubClientLLHandle optionName value, inst,
        [Event.Lock inst.LockHandle locked,
         Event.IoTHubClient_LL_SetOption inst.IoTHubClientLLHandle optionName value,
         Event.Unlock inst.LockHandle]⟩

/-- The function `IoTHubClient_CreateFromConnectionString`; a NULL
`connectionString` is `none`. -/
def IoTHubClient_CreateFromConnectionString (env : Env) (connectionString : Option String)
    (protocol : Nat) : Created :=
  match connectionString with
  | none => ⟨NULL, none, []⟩
  | some cs =>
    if protocol = NULL then
      ⟨NULL, none, []⟩
    else
      let result := env.malloc.1
      if result = NULL then
        ⟨NULL, none, [Event.malloc result]⟩
      else
        let cell := { env.malloc.2 with LockHandle := env.Lock_Init }
        if cell.LockHandle = NULL then
          ⟨NULL, none, [Event.malloc result, Event.Lock_Init cell.LockHandle, Event.free result]⟩
        else
          let cell1 := { cell with
            IoTHubClientLLHandle := env.IoTHubClient_LL_CreateFromConnectionString cs protocol }
          if cell1.IoTHubClientLLHandle = NULL then
            ⟨NULL, none,
              [Event.malloc result, Event.Lock_Init cell.LockHandle,
               Event.IoTHubClient_LL_CreateFromConnectionString cs protocol,
               Event.Lock_Deinit cell1.LockHandle, Event.free result]⟩
          else
            ⟨result, some { cell1 with ThreadHandle := NULL, TransportHandle := NULL },
              [Event.malloc result, Event.Lock_Init cell.LockHandle,
               Event.IoTHubClient_LL_CreateFromConnectionString cs protocol]⟩

/-- The function `IoTHubClient_Create`; a NULL `config` is `none`. -/
def IoTHubClient_Create (env : Env) (config : Option IOTHUB_CLIENT_CONFIG) : Created :=
  let result := env.malloc.1
  if result ≠ NULL then
    let cell := { env.malloc.2 with LockHandle := env.Lock_Init }
    if cell.LockHandle = NULL then
      ⟨NULL, none, [Event.malloc result, Event.Lock_Init cell.LockHandle, Event.free result]⟩
    else
      let cell1 := { cell with IoTHubClientLLHandle := env.IoTHubClient_LL_Create config }
      if cell1.IoTHubClientLLHandle = NULL then
        ⟨NULL, none,
          [Event.malloc result, Event.Lock_Init cell.LockHandle,
           Event.IoTHubClient_LL_Create config,
           Event.Lock_Deinit cell1.LockHandle, Event.free result]⟩
      else
        ⟨result, some { cell1 with TransportHandle := NULL, ThreadHandle := NULL },
          [Event.malloc result, Event.Lock_Init cell.LockHandle,
           Event.IoTHubClient_LL_Create config]⟩
  else
    ⟨result, none, [Event.malloc result]⟩

/-- The function `IoTHubClient_CreateWithTransport`; a NULL `config` is `none`. -/
def IoTHubClient_CreateWithTransport (env : Env) (transportHandle : Nat)
    (config : Option IOTHUB_CLIENT_CONFIG) : Created :=
  match config with
  | none => ⟨NULL, none, []⟩
  | some cfg =>
    if transportHandle = NULL then
      ⟨NULL, none, []⟩
    else
      let result := env.malloc.1
      if result ≠ NULL then
        let cell := { env.malloc.2 with ThreadHandle := NULL, TransportHandle := transportHandle }
        let transportLock := env.IoTHubTransport_GetLock transportHandle
        let cell1 := { cell with LockHandle := transportLock }
        let t1 := [Event.malloc result, Event.IoTHubTransport_GetLock transportHandle]
        if cell1.LockHandle = NULL then
          ⟨NULL, none, t1 ++ [Event.free result]⟩
        else
          let deviceConfig : IOTHUB_CLIENT_DEVICE_CONFIG :=
            { deviceId := cfg.deviceId, deviceKey := cfg.deviceKey, protocol := cfg.protocol,
              deviceSasToken := cfg.deviceSasToken,
              transportHandle := env.IoTHubTransport_GetLLTransport transportHandle }
          let t2 := t1 ++ [Event.IoTHubTransport_GetLLTransport transportHandle]
          if deviceConfig.transportHandle = NULL then
            ⟨NULL, none, t2 ++ [Event.free result]⟩
          else
            let locked := env.Lock transportLock
            if locked ≠ LOCK_OK then
              ⟨NULL, none, t2 ++ [Event.Lock transportLock locked, Event.free result]⟩
            else
              let cell2 := { cell1 with
                IoTHubClientLLHandle := env.IoTHubClient_LL_CreateWithTransport deviceConfig }
              let t3 := t2 ++ [Event.Lock transportLock locked,
                               Event.IoTHubClient_LL_CreateWithTransport deviceConfig]
              if cell2.IoTHubClientLLHandle = NULL then
                ⟨NULL, none, t3 ++ [Event.free result, Event.Unlock transportLock]⟩
              else
                ⟨result, some cell2, t3 ++ [Event.Unlock transportLock]⟩
      else
        ⟨result, none, [Event.malloc result]⟩

/-- The function `IoTHubClient_Destroy`: the calls it makes, in order. -/
def IoTHubClient_Destroy (env : Env) (iotHubClientHandle : Nat)
    (inst : IOTHUB_CLIENT_INSTANCE) : List Event :=
  if iotHubClientHandle ≠ NULL then
    let t1 := [Event.Lock inst.LockHandle (env.Lock inst.LockHandle)]
    let stop : IOTHUB_CLIENT_INSTANCE × Bool × List Event :=
      if inst.ThreadHandle ≠ NULL then
        ({ inst with StopThread := 1 }, true, [Event.StoreStopThread 1])
      else
        (inst, false, [])
    let inst1 := stop.1
    let signal : Bool × List Event :=
      if inst1.TransportHandle ≠ NULL then
        (env.IoTHubTransport_SignalEndWorkerThread inst1.TransportHandle iotHubClientHandle,
          [Event.IoTHubTransport_SignalEndWorkerThread inst1.TransportHandle iotHubClientHandle])
      else
        (stop.2.1, [])
    let okToJoin := signal.1
    let t2 := [Event.IoTHubClient_LL_Destroy inst1.IoTHubClientLLHandle,
               Event.Unlock inst1.LockHandle]
    let t3 :=
      if okToJoin = true then
        (if inst1.ThreadHandle ≠ NULL then [Event.ThreadAPI_Join inst1.ThreadHandle] else [])
          ++ (if inst1.TransportHandle ≠ NULL then
                [Event.IoTHubTransport_JoinWorkerThread inst1.TransportHandle iotHubClientHandle]
              else [])
      else []
    let t4 := if inst1.TransportHandle = NULL then [Event.Lock_Deinit inst1.LockHandle] else []
    t1 ++ stop.2.2 ++ signal.2 ++ t2 ++ t3 ++ t4 ++ [Event.free iotHubClientHandle]
  else
    []

/-- One pass through the body of the `while (1)` loop of `ScheduleWork_Thread`:
the calls it makes, and whether it leaves the loop (`break`). -/
def ScheduleWork_iteration (env : Env) (inst : IOTHUB_CLIENT_INSTANCE) : List Event × Bool :=
  let locked := env.Lock inst.LockHandle
  if locked = LOCK_OK then
    if inst.StopThread ≠ 0 then
      ([Event.Lock inst.LockHandle locked, Event.Unlock inst.LockHandle], true)
    else
      ([Event.Lock inst.LockHandle locked,
        Event.IoTHubClient_LL_DoWork inst.IoTHubClientLLHandle,
        Event.Unlock inst.LockHandle,
        Event.ThreadAPI_Sleep 1], false)
  else
    ([Event.Lock inst.LockHandle locked, Event.ThreadAPI_Sleep 1], false)

/-- The function `ScheduleWork_Thread`, run against a finite schedule: one entry
per loop iteration, giving the collaborators' answers and the value of the
`StopThread` flag (stored by other threads) seen in that iteration.  The result
is the calls made and the thread's return value, `none` while the loop is
still running when the schedule ends. -/
def ScheduleWork_Thread (inst : IOTHUB_CLIENT_INSTANCE) :
    List (Env × Int) → List Event × Option Int
  | [] => ([], none)
  | (env, stopThread) :: rest =>
    let step := ScheduleWork_iteration env { inst with StopThread := stopThread }
    if step.2 then
      (step.1, some 0)
    else
      let later := ScheduleWork_Thread inst rest
      (step.1 ++ later.1, later.2)

/-- Calls into the lower-layer client of an existing instance. -/
def isLLCall : Event → Bool
  | Event.IoTHubClient_LL_Destroy _ => true
  | Event.IoTHubClient_LL_SendEventAsync _ _ _ _ => true
  | Event.IoTHubClient_LL_GetSendStatus _ _ => true
  | Event.IoTHubClient_LL_SetMessageCallback _ _ _ => true
  | Event.IoTHubClient_LL_GetLastMessageReceiveTime _ _ => true
  | Event.IoTHubClient_LL_SetOption _ _ _ => true
  | Event.IoTHubClient_LL_DoWork _ => true
  | _ => false

/-- Calls to `Unlock`. -/
def isUnlock : Event → Bool
  | Event.Unlock _ => true
  | _ => false

/-- Calls to `ThreadAPI_Create`. -/
def isThreadCreate : Event → Bool
  | Event.ThreadAPI_Create _ _ => true
  | _ => false

/-- Starting the worker fails: without a shared transport `ThreadAPI_Create` is
called (no thread yet) and returns other than `THREADAPI_OK`; with one,
`IoTHubTransport_StartWorkerThread` returns other than `IOTHUB_CLIENT_OK`. -/
def WorkerStartFails (env : Env) (self : Nat) (inst : IOTHUB_CLIENT_INSTANCE) : Prop :=
  (inst.TransportHandle = NULL ∧ inst.ThreadHandle = NULL
      ∧ (env.ThreadAPI_Create THREAD_START_FUNC.ScheduleWork_Thread self).1 ≠ THREADAPI_OK)
  ∨ (inst.TransportHandle ≠ NULL
      ∧ env.IoTHubTransport_StartWorkerThread inst.TransportHandle self ≠ IOTHUB_CLIENT_OK)

/-- The invariant of the data model: an instance has a private worker thread or a
shared transport, never both. -/
def Exclusive (inst : IOTHUB_CLIENT_INSTANCE) : Prop :=
  inst.TransportHandle = NULL ∨ inst.ThreadHandle = NULL

instance (inst : IOTHUB_CLIENT_INSTANCE) : Decidable (Exclusive inst) := by
  unfold Exclusive; infer_instance

instance (env : Env) (self : Nat) (inst : IOTHUB_CLIENT_INSTANCE) :
    Decidable (WorkerStartFails env self inst) := by
  unfold WorkerStartFails; infer_instance

/-- A private instance as the plain constructors leave it: lower-layer handle 11,
lock 7, no transport, no thread. -/
def samplePrivate : IOTHUB_CLIENT_INSTANCE :=
  { IoTHubClientLLHandle := 11, TransportHandle := NULL, ThreadHandle := NULL,
    LockHandle := 7, StopThread := 5, blobThreadsToBeJoined := 0 }

/-- An instance attached to the shared transport 40, using the transport's lock 8. -/
def sampleShared : IOTHUB_CLIENT_INSTANCE :=
  { IoTHubClientLLHandle := 12, TransportHandle := 40, ThreadHandle := NULL,
    LockHandle := 8, StopThread := 5, blobThreadsToBeJoined := 0 }

/-- A configuration record. -/
def sampleConfig : IOTHUB_CLIENT_CONFIG :=
  { protocol := 1, deviceId := 2, deviceKey := 3, deviceSasToken := 4, rest := 0 }

/-- Collaborators that all succeed: allocation at address 100, new lock 7,
thread handle 55, transport lock 8, lower-layer handles 11 and 12; the lower
layer rejects a NULL configuration and answers the code 9 to a send. -/
def envOK : Env :=
  { malloc := (100, ⟨1, 2, 3, 4, 5, 6⟩)
    Lock_Init := 7
    Lock := fun _ => LOCK_OK
    Unlock := fun _ => LOCK_OK
    ThreadAPI_Create := fun _ _ => (THREADAPI_OK, 55)
    ThreadAPI_Join := fun _ => THREADAPI_OK
    IoTHubTransport_GetLock := fun _ => 8
    IoTHubTransport_GetLLTransport := fun _ => 9
    IoTHubTransport_StartWorkerThread := fun _ _ => IOTHUB_CLIENT_OK
    IoTHubTransport_SignalEndWorkerThread := fun _ _ => true
    IoTHubClient_LL_Create := fun config => if config = none then NULL else 11
    IoTHubClient_LL_CreateFromConnectionString := fun _ _ => 11
    IoTHubClient_LL_CreateWithTransport := fun _ => 12
    IoTHubClient_LL_SendEventAsync := fun _ _ _ _ => IOTHUB_CLIENT_other 9
    IoTHubClient_LL_GetSendStatus := fun _ _ => IOTHUB_CLIENT_OK
    IoTHubClient_LL_SetMessageCallback := fun _ _ _ => IOTHUB_CLIENT_OK
    IoTHubClient_LL_GetLastMessageReceiveTime := fun _ _ => IOTHUB_CLIENT_other 4
    IoTHubClient_LL_SetOption := fun _ _ _ => IOTHUB_CLIENT_INVALID_ARG }

/-- As `envOK`, but every `Lock` fails. -/
def envLockFails : Env := { envOK with Lock := fun _ => LOCK_other 1 }

/-- As `envOK`, but neither `ThreadAPI_Create` nor the transport can start a worker. -/
def envStartFails : Env :=
  { envOK with
    ThreadAPI_Create := fun _ _ => (THREADAPI_other 3, 77)
    IoTHubTransport_StartWorkerThread := fun _ _ => IOTHUB_CLIENT_INVALID_ARG }

/-- Stores to `StopThread` and calls to `ThreadAPI_Create`. -/
def isStopStoreOrThreadCreate : Event → Bool
  | Event.StoreStopThread _ => true
  | Event.ThreadAPI_Create _ _ => true
  | _ => false

/-- Calls to `IoTHubTransport_StartWorkerThread`. -/
def isTransportStart : Event → Bool
  | Event.IoTHubTransport_StartWorkerThread _ _ => true
  | _ => false

/-- A call of one of the five delegating facade operations, with its arguments
other than the client handle. -/
inductive Op where
  | SendEventAsync (eventMessageHandle eventConfirmationCallback userContextCallback : Nat)
  | GetSendStatus (iotHubClientStatus : Nat)
  | SetMessageCallback (messageCallback userContextCallback : Nat)
  | GetLastMessageReceiveTime (lastMessageReceiveTime : Nat)
  | SetOption (optionName value : Nat)
  deriving DecidableEq, Repr

/-- The operations that start the worker: SendEventAsync and SetMessageCallback. -/
def Op.startsWorker : Op → Bool
  | Op.SendEventAsync _ _ _ => true
  | Op.SetMessageCallback _ _ => true
  | _ => false

/-- The application calls one facade operation on the handle `h`. -/
def runOp (env : Env) (h : Nat) (inst : IOTHUB_CLIENT_INSTANCE) : Op → Outcome
  | Op.SendEventAsync m cb ctx => IoTHubClient_SendEventAsync env h inst m cb ctx
  | Op.GetSendStatus p => IoTHubClient_GetSendStatus env h inst p
  | Op.SetMessageCallback cb ctx => IoTHubClient_SetMessageCallback env h inst cb ctx
  | Op.GetLastMessageReceiveTime p => IoTHubClient_GetLastMessageReceiveTime env h inst p
  | Op.SetOption name value => IoTHubClient_SetOption env h inst name value

/-- The application calls a sequence of facade operations on the handle `h`, each
against its own collaborators' answers: the final cell and all calls made. -/
def runOps (h : Nat) : IOTHUB_CLIENT_INSTANCE → List (Env × Op) →
    IOTHUB_CLIENT_INSTANCE × List Event
  | inst, [] => (inst, [])
  | inst, (env, op) :: rest =>
    let o := runOp env h inst op
    let later := runOps h o.inst rest
    (later.1, o.trace ++ later.2)

/-- A call of one of the three constructors. -/
inductive Ctor where
  | Create (config : Option IOTHUB_CLIENT_CONFIG)
  | CreateFromConnectionString (connectionString : Option String) (protocol : Nat)
  | CreateWithTransport (transportHandle : Nat) (config : Option IOTHUB_CLIENT_CONFIG)
  deriving DecidableEq, Repr

/-- The application calls a constructor. -/
def construct (env : Env) : Ctor → Created
  | Ctor.Create config => IoTHubClient_Create env config
  | Ctor.CreateFromConnectionString cs protocol =>
    IoTHubClient_CreateFromConnectionString env cs protocol
  | Ctor.CreateWithTransport t config => IoTHubClient_CreateWithTransport env t config

/-- Calls to `free`. -/
def isFree : Event → Bool
  | Event.free _ => true
  | _ => false

/-- Calls to `Lock_Deinit`. -/
def isLockDeinit : Event → Bool
  | Event.Lock_Deinit _ => true
  | _ => false

/-- Calls to `ThreadAPI_Join`. -/
def isThreadJoin : Event → Bool
  | Event.ThreadAPI_Join _ => true
  | _ => false

/-- Calls that ask the shared transport to stop or join its worker. -/
def isTransportStopJoin : Event → Bool
  | Event.IoTHubTransport_SignalEndWorkerThread _ _ => true
  | Event.IoTHubTransport_JoinWorkerThread _ _ => true
  | _ => false

/-- Whether the lock `lock` is held after the calls of a trace, given whether it
was held before: a `Lock` on it that returned `LOCK_OK` acquires it, a `Lock`
on it that failed does not, an `Unlock` on it releases it. -/
def heldAfter (lock : Nat) : Bool → List Event → Bool
  | held, [] => held
  | held, Event.Lock h r :: rest =>
    heldAfter lock (if h = lock then decide (r = LOCK_OK) else held) rest
  | held, Event.Unlock h :: rest => heldAfter lock (if h = lock then false else held) rest
  | held, _ :: rest => heldAfter lock held rest

/-- The lock discipline on a trace: every call into the lower-layer client of an
existing instance is made while the lock `lock` is held, that is after a `Lock`
on it returned `LOCK_OK` and before the next `Unlock` on it. -/
def lockProtected (lock : Nat) : Bool → List Event → Bool
  | _, [] => true
  | held, Event.Lock h r :: rest =>
    lockProtected lock (if h = lock then decide (r = LOCK_OK) else held) rest
  | held, Event.Unlock h :: rest => lockProtected lock (if h = lock then false else held) rest
  | held, e :: rest => (!isLLCall e || held) && lockProtected lock held rest

/-- A private instance whose worker thread 55 is running. -/
def sampleRunning : IOTHUB_CLIENT_INSTANCE :=
  { samplePrivate with ThreadHandle := 55, StopThread := 0 }

/-- The device configuration `IoTHubClient_CreateWithTransport` hands to the
lower layer: the caller's device fields and the transport's lower-layer handle. -/
def deviceConfigFor (cfg : IOTHUB_CLIENT_CONFIG) (llTransport : Nat) :
    IOTHUB_CLIENT_DEVICE_CONFIG :=
  { protocol := cfg.protocol, transportHandle := llTransport, deviceId := cfg.deviceId,
    deviceKey := cfg.deviceKey, deviceSasToken := cfg.deviceSasToken }

/-- As `envOK`, but every lower-layer constructor fails. -/
def envLLCreateFails : Env :=
  { envOK with
    IoTHubClient_LL_Create := fun _ => NULL
    IoTHubClient_LL_CreateFromConnectionString := fun _ _ => NULL
    IoTHubClient_LL_CreateWithTransport := fun _ => NULL }

/-- Calls to `IoTHubClient_LL_DoWork`. -/
def isDoWork : Event → Bool
  | Event.IoTHubClient_LL_DoWork _ => true
  | _ => false

/-- A schedule entry in which the worker would leave its loop: the lock is
acquired and the stop flag is seen set. -/
def stopsWorker (inst : IOTHUB_CLIENT_INSTANCE) (entry : Env × Int) : Prop :=
  entry.1.Lock inst.LockHandle = LOCK_OK ∧ entry.2 ≠ 0

instance (inst : IOTHUB_CLIENT_INSTANCE) (entry : Env × Int) :
    Decidable (stopsWorker inst entry) := by
  unfold stopsWorker; infer_instance

/-- A running private instance whose stop flag has been set by Destroy. -/
def sampleStopping : IOTHUB_CLIENT_INSTANCE :=
  { samplePrivate with ThreadHandle := 55, StopThread := 1 }

/-- Calls to `Lock`. -/
def isLockCall : Event → Bool
  | Event.Lock _ _ => true
  | _ => false

/-- The lock handle a call acquired: the handle of a `Lock` that returned
`LOCK_OK`, nothing for any other call. -/
def acquired : Event → Option Nat
  | Event.Lock h r => if r = LOCK_OK then some h else none
  | _ => none

/-- Lock balance of the calls of one facade function: the `Unlock` calls are
exactly one per `Lock` that returned `LOCK_OK`, on the handle that was locked;
`Lock` is called at most once; an `Unlock` is the last call made (so it comes
after any lower-layer call); and no lock is held at the end. -/
def LockBalanced (trace : List Event) : Prop :=
  trace.filter isUnlock = (trace.filterMap acquired).map Event.Unlock
  ∧ (trace.filter isLockCall).length ≤ 1
  ∧ (∀ u ∈ trace.filter isUnlock, trace.getLast? = some u)
  ∧ (∀ lock : Nat, heldAfter lock false trace = false)

/-- A call that is neither `Lock` nor `Unlock`. -/
def quiet (e : Event) : Bool := !isLockCall e && !isUnlock e

/-! ## Argument validation and lock failure -/

/-- C1: with a NULL client handle each of the five delegating operations returns
IOTHUB_CLIENT_INVALID_ARG, makes no call at all (so no Lock, no Unlock, no
thread start, no lower-layer call) and leaves the cell alone, whatever the
other arguments are; IoTHubClient_SetOption does the same for any handle when
optionName is NULL or value is NULL. -/
theorem null_argument_is_invalid_arg (env : Env) (inst : IOTHUB_CLIENT_INSTANCE)
    (h a b c : Nat) :
    IoTHubClient_SendEventAsync env NULL inst a b c = ⟨IOTHUB_CLIENT_INVALID_ARG, inst, []⟩
    ∧ IoTHubClient_GetSendStatus env NULL inst a = ⟨IOTHUB_CLIENT_INVALID_ARG, inst, []⟩
    ∧ IoTHubClient_SetMessageCallback env NULL inst a b = ⟨IOTHUB_CLIENT_INVALID_ARG, inst, []⟩
    ∧ IoTHubClient_GetLastMessageReceiveTime env NULL inst a
        = ⟨IOTHUB_CLIENT_INVALID_ARG, inst, []⟩
    ∧ IoTHubClient_SetOption env NULL inst a b = ⟨IOTHUB_CLIENT_INVALID_ARG, inst, []⟩
    ∧ IoTHubClient_SetOption env h inst NULL b = ⟨IOTHUB_CLIENT_INVALID_ARG, inst, []⟩
    ∧ IoTHubClient_SetOption env h inst a NULL = ⟨IOTHUB_CLIENT_INVALID_ARG, inst, []⟩ := by
  simp [IoTHubClient_SendEventAsync, IoTHubClient_GetSendStatus,
    IoTHubClient_SetMessageCallback, IoTHubClient_GetLastMessageReceiveTime,
    IoTHubClient_SetOption]

/-- C2: with non-NULL required arguments, when Lock on the instance's lock
returns anything other than LOCK_OK, each of the five delegating operations
returns IOTHUB_CLIENT_ERROR, its only call is that Lock (no lower-layer call, no
thread creation or start, no Unlock), and the instance cell is unchanged. -/
theorem lock_failure_is_error (env : Env) (inst : IOTHUB_CLIENT_INSTANCE) (h a b c : Nat)
    (hh : h ≠ NULL) (hlock : env.Lock inst.LockHandle ≠ LOCK_OK) :
    IoTHubClient_SendEventAsync env h inst a b c
        = ⟨IOTHUB_CLIENT_ERROR, inst, [Event.Lock inst.LockHandle (env.Lock inst.LockHandle)]⟩
    ∧ IoTHubClient_GetSendStatus env h inst a
        = ⟨IOTHUB_CLIENT_ERROR, inst, [Event.Lock inst.LockHandle (env.Lock inst.LockHandle)]⟩
    ∧ IoTHubClient_SetMessageCallback env h inst a b
        = ⟨IOTHUB_CLIENT_ERROR, inst, [Event.Lock inst.LockHandle (env.Lock inst.LockHandle)]⟩
    ∧ IoTHubClient_GetLastMessageReceiveTime env h inst a
        = ⟨IOTHUB_CLIENT_ERROR, inst, [Event.Lock inst.LockHandle (env.Lock inst.LockHandle)]⟩
    ∧ (a ≠ NULL → b ≠ NULL → IoTHubClient_SetOption env h inst a b
        = ⟨IOTHUB_CLIENT_ERROR, inst, [Event.Lock inst.LockHandle (env.Lock inst.LockHandle)]⟩) := by
  have hh0 : ¬ h = 0 := hh
  refine ⟨?_, ?_, ?_, ?_, ?_⟩
  · simp [IoTHubClient_SendEventAsync, hh0, hlock]
  · simp [IoTHubClient_GetSendStatus, hh0, hlock]
  · simp [IoTHubClient_SetMessageCallback, hh0, hlock]
  · simp [IoTHubClient_GetLastMessageReceiveTime, hh0, hlock]
  · intro ha hb
    have ha0 : ¬ a = 0 := ha
    have hb0 : ¬ b = 0 := hb
    simp [IoTHubClient_SetOption, hh0, ha0, hb0, hlock]

theorem lock_failure_is_error_witness :
    (100 : Nat) ≠ NULL ∧ envLockFails.Lock samplePrivate.LockHandle ≠ LOCK_OK
    ∧ IoTHubClient_SendEventAsync envLockFails 100 samplePrivate 1 2 3
        = ⟨IOTHUB_CLIENT_ERROR, samplePrivate, [Event.Lock 7 (LOCK_other 1)]⟩ :=
  ⟨by decide, by decide,
    (lock_failure_is_error envLockFails samplePrivate 100 1 2 3 (by decide) (by decide)).1⟩

/-! ## Delegation -/

theorem StartWorkerThreadIfNeeded_frame (env : Env) (self : Nat)
    (inst : IOTHUB_CLIENT_INSTANCE) :
    (StartWorkerThreadIfNeeded env self inst).inst.IoTHubClientLLHandle
        = inst.IoTHubClientLLHandle
    ∧ (StartWorkerThreadIfNeeded env self inst).inst.LockHandle = inst.LockHandle
    ∧ (StartWorkerThreadIfNeeded env self inst).inst.TransportHandle = inst.TransportHandle
    ∧ (StartWorkerThreadIfNeeded env self inst).trace.filter isLLCall = []
    ∧ (StartWorkerThreadIfNeeded env self inst).trace.filter isUnlock = [] := by
  unfold StartWorkerThreadIfNeeded
  dsimp only
  split_ifs <;> simp [isLLCall, isUnlock]

/-- C3: with non-NULL arguments and the lock acquired (and, for SendEventAsync
and SetMessageCallback, StartWorkerThreadIfNeeded returning IOTHUB_CLIENT_OK),
each delegating operation makes exactly one lower-layer call, the matching
one, on the instance's lower-layer handle with the caller's arguments, and
returns exactly what that call returned, whatever code that is. -/
theorem delegation_passes_result_through (env : Env) (inst : IOTHUB_CLIENT_INSTANCE)
    (h a b c : Nat) (hh : h ≠ NULL) (hlock : env.Lock inst.LockHandle = LOCK_OK) :
    ((StartWorkerThreadIfNeeded env h inst).result = IOTHUB_CLIENT_OK →
      (IoTHubClient_SendEventAsync env h inst a b c).result
          = env.IoTHubClient_LL_SendEventAsync inst.IoTHubClientLLHandle a b c
      ∧ (IoTHubClient_SendEventAsync env h inst a b c).trace.filter isLLCall
          = [Event.IoTHubClient_LL_SendEventAsync inst.IoTHubClientLLHandle a b c])
    ∧ ((IoTHubClient_GetSendStatus env h inst a).result
          = env.IoTHubClient_LL_GetSendStatus inst.IoTHubClientLLHandle a
      ∧ (IoTHubClient_GetSendStatus env h inst a).trace.filter isLLCall
          = [Event.IoTHubClient_LL_GetSendStatus inst.IoTHubClientLLHandle a])
    ∧ ((StartWorkerThreadIfNeeded env h inst).result = IOTHUB_CLIENT_OK →
      (IoTHubClient_SetMessageCallback env h inst a b).result
          = env.IoTHubClient_LL_SetMessageCallback inst.IoTHubClientLLHandle a b
      ∧ (IoTHubClient_SetMessageCallback env h inst a b).trace.filter isLLCall
          = [Event.IoTHubClient_LL_SetMessageCallback inst.IoTHubClientLLHandle a b])
    ∧ ((IoTHubClient_GetLastMessageReceiveTime env h inst a).result
          = env.IoTHubClient_LL_GetLastMessageReceiveTime inst.IoTHubClientLLHandle a
      ∧ (IoTHubClient_GetLastMessageReceiveTime env h inst a).trace.filter isLLCall
          = [Event.IoTHubClient_LL_GetLastMessageReceiveTime inst.IoTHubClientLLHandle a])
    ∧ (a ≠ NULL → b ≠ NULL →
      (IoTHubClient_SetOption env h inst a b).result
          = env.IoTHubClient_LL_SetOption inst.IoTHubClientLLHandle a b
      ∧ (IoTHubClient_SetOption env h inst a b).trace.filter isLLCall
          = [Event.IoTHubClient_LL_SetOption inst.IoTHubClientLLHandle a b]) := by
  have hh0 : ¬ h = 0 := hh
  obtain ⟨fll, -, -, fcalls, -⟩ := StartWorkerThreadIfNeeded_frame env h inst
  refine ⟨?_, ?_, ?_, ?_, ?_⟩
  · intro hs
    simp [IoTHubClient_SendEventAsync, hh0, hlock, hs, fll, fcalls, isLLCall]
  · simp [IoTHubClient_GetSendStatus, hh0, hlock, isLLCall]
  · intro hs
    simp [IoTHubClient_SetMessageCallback, hh0, hlock, hs, fll, fcalls, isLLCall]
  · simp [IoTHubClient_GetLastMessageReceiveTime, hh0, hlock, isLLCall]
  · intro ha hb
    have ha0 : ¬ a = 0 := ha
    have hb0 : ¬ b = 0 := hb
    simp [IoTHubClient_SetOption, hh0, ha0, hb0, hlock, isLLCall]

theorem delegation_passes_result_through_witness :
    (100 : Nat) ≠ NULL ∧ envOK.Lock samplePrivate.LockHandle = LOCK_OK
    ∧ (StartWorkerThreadIfNeeded envOK 100 samplePrivate).result = IOTHUB_CLIENT_OK
    ∧ (IoTHubClient_SendEventAsync envOK 100 samplePrivate 1 2 3).result = IOTHUB_CLIENT_other 9
    ∧ (IoTHubClient_SendEventAsync envOK 100 samplePrivate 1 2 3).trace.filter isLLCall
        = [Event.IoTHubClient_LL_SendEventAsync 11 1 2 3] :=
  ⟨by decide, by decide, by decide,
    (delegation_passes_result_through envOK samplePrivate 100 1 2 3 (by decide) (by decide)).1
      (by decide)⟩

/-- C4: on a non-NULL instance (private thread or shared transport, never both)
whose lock is acquired, when starting the worker fails, SendEventAsync and
SetMessageCallback return IOTHUB_CLIENT_ERROR, make no lower-layer call, leave
ThreadHandle NULL, and release the instance's lock exactly once, as their last
call. -/
theorem worker_start_failure_is_error (env : Env) (inst : IOTHUB_CLIENT_INSTANCE)
    (h a b c : Nat) (hh : h ≠ NULL) (hex : Exclusive inst)
    (hlock : env.Lock inst.LockHandle = LOCK_OK) (hfail : WorkerStartFails env h inst) :
    ((IoTHubClient_SendEventAsync env h inst a b c).result = IOTHUB_CLIENT_ERROR
      ∧ (IoTHubClient_SendEventAsync env h inst a b c).trace.filter isLLCall = []
      ∧ (IoTHubClient_SendEventAsync env h inst a b c).inst.ThreadHandle = NULL
      ∧ (IoTHubClient_SendEventAsync env h inst a b c).trace.filter isUnlock
          = [Event.Unlock inst.LockHandle]
      ∧ (IoTHubClient_SendEventAsync env h inst a b c).trace.getLast?
          = some (Event.Unlock inst.LockHandle))
    ∧ ((IoTHubClient_SetMessageCallback env h inst a b).result = IOTHUB_CLIENT_ERROR
      ∧ (IoTHubClient_SetMessageCallback env h inst a b).trace.filter isLLCall = []
      ∧ (IoTHubClient_SetMessageCallback env h inst a b).inst.ThreadHandle = NULL
      ∧ (IoTHubClient_SetMessageCallback env h inst a b).trace.filter isUnlock
          = [Event.Unlock inst.LockHandle]
      ∧ (IoTHubClient_SetMessageCallback env h inst a b).trace.getLast?
          = some (Event.Unlock inst.LockHandle)) := by
  have hh0 : ¬ h = 0 := hh
  obtain ⟨-, flock, -, fcalls, funlock⟩ := StartWorkerThreadIfNeeded_frame env h inst
  have hres : (StartWorkerThreadIfNeeded env h inst).result ≠ IOTHUB_CLIENT_OK
      ∧ (StartWorkerThreadIfNeeded env h inst).inst.ThreadHandle = NULL := by
    unfold StartWorkerThreadIfNeeded
    rcases hfail with ⟨ht, hth, hc⟩ | ⟨ht, hs⟩
    · simp [ht, hth, hc]
    · have ht0 : ¬ inst.TransportHandle = 0 := ht
      have hth : inst.ThreadHandle = 0 := by
        rcases hex with h1 | h1
        · exact absurd h1 ht
        · exact h1
      simp [ht0, hs, hth]
  obtain ⟨hne, hthread⟩ := hres
  have hlast : ∀ (e u : Event) (t : List Event), (e :: (t ++ [u])).getLast? = some u := by
    intro e u t
    rw [← List.cons_append, List.getLast?_append]
    simp
  constructor
  · simp [IoTHubClient_SendEventAsync, hh0, hlock, hne, fcalls, funlock, flock, hthread,
      isLLCall, isUnlock, hlast]
  · simp [IoTHubClient_SetMessageCallback, hh0, hlock, hne, fcalls, funlock, flock, hthread,
      isLLCall, isUnlock, hlast]

theorem worker_start_failure_is_error_witness :
    (100 : Nat) ≠ NULL ∧ Exclusive sampleShared
    ∧ envStartFails.Lock sampleShared.LockHandle = LOCK_OK
    ∧ WorkerStartFails envStartFails 100 sampleShared
    ∧ (IoTHubClient_SendEventAsync envStartFails 100 sampleShared 1 2 3).result
        = IOTHUB_CLIENT_ERROR
    ∧ (IoTHubClient_SendEventAsync envStartFails 100 sampleShared 1 2 3).trace
        = [Event.Lock 8 LOCK_OK, Event.IoTHubTransport_StartWorkerThread 40 100,
           Event.Unlock 8] :=
  ⟨by decide, by decide, by decide, by decide,
    (worker_start_failure_is_error envStartFails sampleShared 100 1 2 3 (by decide)
      (by decide) (by decide) (by decide)).1.1,
    by decide⟩

/-! ## Constructors -/

/-- C5 (as stated, refuted): IoTHubClient_Create with a NULL config returns NULL
only after it has allocated the instance, created a lock and called the
lower-layer constructor. -/
theorem create_null_config_allocates :
    (IoTHubClient_Create envOK none).handle = NULL
    ∧ (IoTHubClient_Create envOK none).trace
        = [Event.malloc 100, Event.Lock_Init 7, Event.IoTHubClient_LL_Create none,
           Event.Lock_Deinit 7, Event.free 100] := by
  decide

/-- C5 (amended): IoTHubClient_CreateFromConnectionString with a NULL
connectionString or protocol, and IoTHubClient_CreateWithTransport with a NULL
transportHandle or config, return NULL and make no call at all.
IoTHubClient_Create does not check config: with a NULL config it allocates,
creates the lock and hands the NULL config to IoTHubClient_LL_Create; when that
returns NULL the constructor returns NULL, having released exactly what it
acquired. -/
theorem null_constructor_argument (env : Env) (cs : Option String)
    (protocol transportHandle : Nat) (config : Option IOTHUB_CLIENT_CONFIG) :
    IoTHubClient_CreateFromConnectionString env none protocol = ⟨NULL, none, []⟩
    ∧ IoTHubClient_CreateFromConnectionString env cs NULL = ⟨NULL, none, []⟩
    ∧ IoTHubClient_CreateWithTransport env NULL config = ⟨NULL, none, []⟩
    ∧ IoTHubClient_CreateWithTransport env transportHandle none = ⟨NULL, none, []⟩
    ∧ (env.IoTHubClient_LL_Create none = NULL →
        (IoTHubClient_Create env none).handle = NULL
        ∧ (IoTHubClient_Create env none).inst = none
        ∧ (IoTHubClient_Create env none).trace
            = if env.malloc.1 = NULL then [Event.malloc NULL]
              else if env.Lock_Init = NULL then
                [Event.malloc env.malloc.1, Event.Lock_Init NULL, Event.free env.malloc.1]
              else
                [Event.malloc env.malloc.1, Event.Lock_Init env.Lock_Init,
                 Event.IoTHubClient_LL_Create none, Event.Lock_Deinit env.Lock_Init,
                 Event.free env.malloc.1]) := by
  refine ⟨?_, ?_, ?_, ?_, ?_⟩
  · simp [IoTHubClient_CreateFromConnectionString]
  · cases cs <;> simp [IoTHubClient_CreateFromConnectionString]
  · cases config <;> simp [IoTHubClient_CreateWithTransport]
  · simp [IoTHubClient_CreateWithTransport]
  · intro hll
    unfold IoTHubClient_Create
    dsimp only
    by_cases hm : env.malloc.1 = 0
    · simp [hm]
    · by_cases hl : env.Lock_Init = 0
      · simp [hm, hl]
      · simp [hm, hl, hll]

theorem null_constructor_argument_witness :
    envOK.IoTHubClient_LL_Create none = NULL
    ∧ (IoTHubClient_Create envOK none).handle = NULL
    ∧ (IoTHubClient_Create envOK none).inst = none :=
  ⟨by decide,
    ((null_constructor_argument envOK none 0 0 none).2.2.2.2 (by decide)).1,
    ((null_constructor_argument envOK none 0 0 none).2.2.2.2 (by decide)).2.1⟩

/-! ## Worker thread start-up over sequences of operations -/

theorem runOps_append (h : Nat) (xs ys : List (Env × Op)) (inst : IOTHUB_CLIENT_INSTANCE) :
    runOps h inst (xs ++ ys)
      = ((runOps h (runOps h inst xs).1 ys).1,
         (runOps h inst xs).2 ++ (runOps h (runOps h inst xs).1 ys).2) := by
  induction xs generalizing inst with
  | nil => simp [runOps]
  | cons x xs ih =>
    obtain ⟨env, op⟩ := x
    simp [runOps, ih, List.append_assoc]

/-- An operation that does not start the worker leaves the cell as it is and
never calls `ThreadAPI_Create`. -/
theorem runOp_not_starting (env : Env) (h : Nat) (inst : IOTHUB_CLIENT_INSTANCE) (op : Op)
    (hop : op.startsWorker = false) :
    (runOp env h inst op).inst = inst
    ∧ (runOp env h inst op).trace.filter isThreadCreate = [] := by
  cases op with
  | SendEventAsync m cb ctx => simp [Op.startsWorker] at hop
  | SetMessageCallback cb ctx => simp [Op.startsWorker] at hop
  | GetSendStatus p =>
    simp only [runOp, IoTHubClient_GetSendStatus]
    split_ifs <;> simp [isThreadCreate]
  | GetLastMessageReceiveTime p =>
    simp only [runOp, IoTHubClient_GetLastMessageReceiveTime]
    split_ifs <;> simp [isThreadCreate]
  | SetOption name value =>
    simp only [runOp, IoTHubClient_SetOption]
    split_ifs <;> simp [isThreadCreate]

/-- What `StartWorkerThreadIfNeeded` does to the thread and transport handles. -/
theorem StartWorkerThreadIfNeeded_handles (env : Env) (self : Nat)
    (inst : IOTHUB_CLIENT_INSTANCE) :
    (inst.TransportHandle ≠ NULL →
      (StartWorkerThreadIfNeeded env self inst).inst = inst
      ∧ (StartWorkerThreadIfNeeded env self inst).trace
          = [Event.IoTHubTransport_StartWorkerThread inst.TransportHandle self])
    ∧ (inst.TransportHandle = NULL → inst.ThreadHandle ≠ NULL →
      (StartWorkerThreadIfNeeded env self inst).inst = inst
      ∧ (StartWorkerThreadIfNeeded env self inst).trace = []) := by
  unfold StartWorkerThreadIfNeeded
  dsimp only
  constructor
  · intro ht
    have ht0 : ¬ inst.TransportHandle = 0 := ht
    simp [ht0]
  · intro ht hth
    have hth0 : ¬ inst.ThreadHandle = 0 := hth
    simp [ht, hth0]

/-- Every operation keeps the lock, transport and lower-layer handles, and an
operation on a cell that already has a thread or a transport keeps the cell
and never calls `ThreadAPI_Create`. -/
theorem runOp_frame (env : Env) (h : Nat) (inst : IOTHUB_CLIENT_INSTANCE) (op : Op) :
    (runOp env h inst op).inst.LockHandle = inst.LockHandle
    ∧ (runOp env h inst op).inst.TransportHandle = inst.TransportHandle
    ∧ (runOp env h inst op).inst.IoTHubClientLLHandle = inst.IoTHubClientLLHandle
    ∧ ((inst.TransportHandle ≠ NULL ∨ inst.ThreadHandle ≠ NULL) →
        (runOp env h inst op).inst = inst
        ∧ (runOp env h inst op).trace.filter isThreadCreate = []) := by
  obtain ⟨fll, flock, ftr, -, -⟩ := StartWorkerThreadIfNeeded_frame env h inst
  have hkeep : (inst.TransportHandle ≠ NULL ∨ inst.ThreadHandle ≠ NULL) →
      (StartWorkerThreadIfNeeded env h inst).inst = inst
      ∧ (StartWorkerThreadIfNeeded env h inst).trace.filter isThreadCreate = [] := by
    intro hor
    by_cases ht : inst.TransportHandle = NULL
    · have hth : inst.ThreadHandle ≠ NULL := by
        rcases hor with h1 | h1
        · exact absurd ht h1
        · exact h1
      obtain ⟨e1, e2⟩ := (StartWorkerThreadIfNeeded_handles env h inst).2 ht hth
      simp [e1, e2]
    · obtain ⟨e1, e2⟩ := (StartWorkerThreadIfNeeded_handles env h inst).1 ht
      simp [e1, e2, isThreadCreate]
  cases op with
  | SendEventAsync m cb ctx =>
    simp only [runOp, IoTHubClient_SendEventAsync]
    split_ifs
    · simp
    · simp [isThreadCreate]
    · refine ⟨flock, ftr, fll, fun hor => ?_⟩
      obtain ⟨e1, e2⟩ := hkeep hor
      simp [e1, e2, isThreadCreate]
    · refine ⟨flock, ftr, fll, fun hor => ?_⟩
      obtain ⟨e1, e2⟩ := hkeep hor
      simp [e1, e2, isThreadCreate]
  | SetMessageCallback cb ctx =>
    simp only [runOp, IoTHubClient_SetMessageCallback]
    split_ifs
    · simp
    · simp [isThreadCreate]
    · refine ⟨flock, ftr, fll, fun hor => ?_⟩
      obtain ⟨e1, e2⟩ := hkeep hor
      simp [e1, e2, isThreadCreate]
    · refine ⟨flock, ftr, fll, fun hor => ?_⟩
      obtain ⟨e1, e2⟩ := hkeep hor
      simp [e1, e2, isThreadCreate]
  | GetSendStatus p =>
    simp only [runOp, IoTHubClient_GetSendStatus]
    split_ifs <;> simp [isThreadCreate]
  | GetLastMessageReceiveTime p =>
    simp only [runOp, IoTHubClient_GetLastMessageReceiveTime]
    split_ifs <;> simp [isThreadCreate]
  | SetOption name value =>
    simp only [runOp, IoTHubClient_SetOption]
    split_ifs <;> simp [isThreadCreate]

theorem runOps_not_starting (h : Nat) (steps : List (Env × Op))
    (inst : IOTHUB_CLIENT_INSTANCE) (hsteps : ∀ s ∈ steps, s.2.startsWorker = false) :
    (runOps h inst steps).1 = inst
    ∧ (runOps h inst steps).2.filter isThreadCreate = [] := by
  induction steps generalizing inst with
  | nil => simp [runOps]
  | cons x xs ih =>
    obtain ⟨env, op⟩ := x
    obtain ⟨e1, e2⟩ := runOp_not_starting env h inst op (hsteps (env, op) (by simp))
    obtain ⟨i1, i2⟩ := ih inst (fun s hs => hsteps s (by simp [hs]))
    simp [runOps, e1, e2, i1, i2]

theorem runOps_settled (h : Nat) (steps : List (Env × Op)) (inst : IOTHUB_CLIENT_INSTANCE)
    (hor : inst.TransportHandle ≠ NULL ∨ inst.ThreadHandle ≠ NULL) :
    (runOps h inst steps).1 = inst
    ∧ (runOps h inst steps).2.filter isThreadCreate = [] := by
  induction steps with
  | nil => simp [runOps]
  | cons x xs ih =>
    obtain ⟨env, op⟩ := x
    obtain ⟨e1, e2⟩ := (runOp_frame env h inst op).2.2.2 hor
    obtain ⟨i1, i2⟩ := ih
    simp [runOps, e1, e2, i1, i2]

/-- The first starting operation on a private instance without a thread, when
the lock is acquired and `ThreadAPI_Create` succeeds. -/
theorem runOp_first_start (env : Env) (h : Nat) (inst : IOTHUB_CLIENT_INSTANCE) (op : Op)
    (hh : h ≠ NULL) (ht : inst.TransportHandle = NULL) (hth : inst.ThreadHandle = NULL)
    (hlock : env.Lock inst.LockHandle = LOCK_OK)
    (hc : (env.ThreadAPI_Create THREAD_START_FUNC.ScheduleWork_Thread h).1 = THREADAPI_OK)
    (hop : op.startsWorker = true) :
    (runOp env h inst op).trace.filter isStopStoreOrThreadCreate
        = [Event.StoreStopThread 0,
           Event.ThreadAPI_Create THREAD_START_FUNC.ScheduleWork_Thread h]
    ∧ (runOp env h inst op).trace.filter isThreadCreate
        = [Event.ThreadAPI_Create THREAD_START_FUNC.ScheduleWork_Thread h]
    ∧ (runOp env h inst op).inst.ThreadHandle
        = (env.ThreadAPI_Create THREAD_START_FUNC.ScheduleWork_Thread h).2 := by
  have hh0 : ¬ h = 0 := hh
  have hs : StartWorkerThreadIfNeeded env h inst
      = ⟨IOTHUB_CLIENT_OK,
          { inst with StopThread := 0,
                      ThreadHandle :=
                        (env.ThreadAPI_Create THREAD_START_FUNC.ScheduleWork_Thread h).2 },
          [Event.StoreStopThread 0,
           Event.ThreadAPI_Create THREAD_START_FUNC.ScheduleWork_Thread h]⟩ := by
    unfold StartWorkerThreadIfNeeded
    simp [ht, hth, hc]
  cases op with
  | SendEventAsync m cb ctx =>
    simp [runOp, IoTHubClient_SendEventAsync, hh0, hlock, hs, isStopStoreOrThreadCreate,
      isThreadCreate]
  | SetMessageCallback cb ctx =>
    simp [runOp, IoTHubClient_SetMessageCallback, hh0, hlock, hs, isStopStoreOrThreadCreate,
      isThreadCreate]
  | GetSendStatus p => simp [Op.startsWorker] at hop
  | GetLastMessageReceiveTime p => simp [Op.startsWorker] at hop
  | SetOption name value => simp [Op.startsWorker] at hop

/-- C6: on a private instance (no shared transport, no thread yet), along any
sequence of facade operations in which Lock and ThreadAPI_Create succeed: up to
the first SendEventAsync or SetMessageCallback ThreadHandle stays NULL and
ThreadAPI_Create is not called; that first operation stores 0 to StopThread
and then calls ThreadAPI_Create once, with ScheduleWork_Thread and the instance
as arguments; no later operation calls it, so the whole sequence creates
exactly one thread. -/
theorem one_private_worker_thread (h : Nat) (inst : IOTHUB_CLIENT_INSTANCE)
    (before later : List (Env × Op)) (env : Env) (op : Op)
    (hh : h ≠ NULL) (ht : inst.TransportHandle = NULL) (hth : inst.ThreadHandle = NULL)
    (hok : ∀ s ∈ before ++ (env, op) :: later,
      s.1.Lock inst.LockHandle = LOCK_OK
      ∧ (s.1.ThreadAPI_Create THREAD_START_FUNC.ScheduleWork_Thread h).1 = THREADAPI_OK
      ∧ (s.1.ThreadAPI_Create THREAD_START_FUNC.ScheduleWork_Thread h).2 ≠ NULL)
    (hbefore : ∀ s ∈ before, s.2.startsWorker = false)
    (hop : op.startsWorker = true) :
    ((runOps h inst before).1.ThreadHandle = NULL
      ∧ (runOps h inst before).2.filter isThreadCreate = [])
    ∧ ((runOp env h (runOps h inst before).1 op).trace.filter isStopStoreOrThreadCreate
          = [Event.StoreStopThread 0,
             Event.ThreadAPI_Create THREAD_START_FUNC.ScheduleWork_Thread h]
      ∧ (runOp env h (runOps h inst before).1 op).inst.ThreadHandle ≠ NULL)
    ∧ (runOps h (runOp env h (runOps h inst before).1 op).inst later).2.filter isThreadCreate
        = []
    ∧ (runOps h inst (before ++ (env, op) :: later)).2.filter isThreadCreate
        = [Event.ThreadAPI_Create THREAD_START_FUNC.ScheduleWork_Thread h] := by
  obtain ⟨b1, b2⟩ := runOps_not_starting h before inst hbefore
  obtain ⟨hlock, hc, hnz⟩ := hok (env, op) (by simp)
  obtain ⟨f1, f2, f3⟩ := runOp_first_start env h inst op hh ht hth hlock hc hop
  have hthread : (runOp env h inst op).inst.ThreadHandle ≠ NULL := by
    rw [f3]; exact hnz
  obtain ⟨-, l2⟩ := runOps_settled h later (runOp env h inst op).inst (Or.inr hthread)
  refine ⟨⟨?_, b2⟩, ⟨?_, ?_⟩, ?_, ?_⟩
  · rw [b1]; exact hth
  · rw [b1]; exact f1
  · rw [b1]; exact hthread
  · rw [b1]; exact l2
  · rw [runOps_append]
    simp only [List.filter_append, b2, b1, runOps, f2, l2]
    simp

theorem one_private_worker_thread_witness :
    (runOps 100 samplePrivate
        ([(envOK, Op.GetSendStatus 1)]
          ++ (envOK, Op.SendEventAsync 1 2 3) :: [(envOK, Op.SetMessageCallback 4 5)])).2.filter
        isThreadCreate
      = [Event.ThreadAPI_Create THREAD_START_FUNC.ScheduleWork_Thread 100] :=
  (one_private_worker_thread 100 samplePrivate [(envOK, Op.GetSendStatus 1)]
    [(envOK, Op.SetMessageCallback 4 5)] envOK (Op.SendEventAsync 1 2 3)
    (by decide) (by decide) (by decide) (by decide) (by decide) (by decide)).2.2.2

/-! ## Private thread or shared transport, never both -/

/-- A constructor that yields a live cell yields a non-NULL handle, no thread,
and the transport it was given (none for the two plain constructors). -/
theorem construct_success (env : Env) (ctor : Ctor) (inst0 : IOTHUB_CLIENT_INSTANCE)
    (hi : (construct env ctor).inst = some inst0) :
    (construct env ctor).handle ≠ NULL
    ∧ inst0.ThreadHandle = NULL
    ∧ (∀ t cfg, ctor = Ctor.CreateWithTransport t cfg → inst0.TransportHandle = t ∧ t ≠ NULL)
    ∧ ((∀ t cfg, ctor ≠ Ctor.CreateWithTransport t cfg) → inst0.TransportHandle = NULL) := by
  cases ctor with
  | Create config =>
    simp only [construct, IoTHubClient_Create] at hi ⊢
    split_ifs at hi ⊢
    simp_all
    subst hi
    simp
  | CreateFromConnectionString cs protocol =>
    cases cs with
    | none => simp [construct, IoTHubClient_CreateFromConnectionString] at hi
    | some str =>
      simp only [construct, IoTHubClient_CreateFromConnectionString] at hi ⊢
      split_ifs at hi ⊢
      simp_all
      subst hi
      simp
  | CreateWithTransport t config =>
    cases config with
    | none => simp [construct, IoTHubClient_CreateWithTransport] at hi
    | some cfg =>
      simp only [construct, IoTHubClient_CreateWithTransport] at hi ⊢
      split_ifs at hi ⊢
      simp_all
      subst hi
      simp

theorem runOps_frame (h : Nat) (steps : List (Env × Op)) (inst : IOTHUB_CLIENT_INSTANCE) :
    (runOps h inst steps).1.TransportHandle = inst.TransportHandle
    ∧ (runOps h inst steps).1.LockHandle = inst.LockHandle := by
  induction steps generalizing inst with
  | nil => simp [runOps]
  | cons x xs ih =>
    obtain ⟨env, op⟩ := x
    obtain ⟨e1, e2, -, -⟩ := runOp_frame env h inst op
    obtain ⟨i1, i2⟩ := ih (runOp env h inst op).inst
    simp [runOps, i1, i2, e1, e2]

/-- On a cell attached to a shared transport, a starting operation that acquires
the lock calls `IoTHubTransport_StartWorkerThread` once, with the transport and
the instance. -/
theorem runOp_transport_start (env : Env) (h : Nat) (inst : IOTHUB_CLIENT_INSTANCE) (op : Op)
    (hh : h ≠ NULL) (ht : inst.TransportHandle ≠ NULL)
    (hlock : env.Lock inst.LockHandle = LOCK_OK) (hop : op.startsWorker = true) :
    (runOp env h inst op).trace.filter isTransportStart
      = [Event.IoTHubTransport_StartWorkerThread inst.TransportHandle h] := by
  have hh0 : ¬ h = 0 := hh
  obtain ⟨e1, e2⟩ := (StartWorkerThreadIfNeeded_handles env h inst).1 ht
  cases op with
  | SendEventAsync m cb ctx =>
    simp only [runOp, IoTHubClient_SendEventAsync]
    split_ifs <;> simp_all [isTransportStart]
  | SetMessageCallback cb ctx =>
    simp only [runOp, IoTHubClient_SetMessageCallback]
    split_ifs <;> simp_all [isTransportStart]
  | GetSendStatus p => simp [Op.startsWorker] at hop
  | GetLastMessageReceiveTime p => simp [Op.startsWorker] at hop
  | SetOption name value => simp [Op.startsWorker] at hop

/-- C7: in every state reached from a successful constructor by any sequence of
facade operations the instance does not have both a transport and a thread.
Built by IoTHubClient_CreateWithTransport, it keeps that transport and a NULL
ThreadHandle, ThreadAPI_Create is never called, and every SendEventAsync or
SetMessageCallback that acquires the lock calls
IoTHubTransport_StartWorkerThread exactly once, on the transport and the
client instance; built by the other two constructors, TransportHandle stays
NULL. -/
theorem thread_or_transport_never_both (env0 : Env) (ctor : Ctor)
    (inst0 : IOTHUB_CLIENT_INSTANCE) (steps : List (Env × Op))
    (hi : (construct env0 ctor).inst = some inst0) :
    Exclusive (runOps (construct env0 ctor).handle inst0 steps).1
    ∧ (∀ t cfg, ctor = Ctor.CreateWithTransport t cfg →
        (runOps (construct env0 ctor).handle inst0 steps).1.TransportHandle = t
        ∧ t ≠ NULL
        ∧ (runOps (construct env0 ctor).handle inst0 steps).1.ThreadHandle = NULL
        ∧ (runOps (construct env0 ctor).handle inst0 steps).2.filter isThreadCreate = []
        ∧ ∀ (env : Env) (op : Op), op.startsWorker = true →
            env.Lock (runOps (construct env0 ctor).handle inst0 steps).1.LockHandle = LOCK_OK →
            (runOp env (construct env0 ctor).handle
                (runOps (construct env0 ctor).handle inst0 steps).1 op).trace.filter
                isTransportStart
              = [Event.IoTHubTransport_StartWorkerThread t (construct env0 ctor).handle]
            ∧ (runOp env (construct env0 ctor).handle
                (runOps (construct env0 ctor).handle inst0 steps).1 op).trace.filter
                isThreadCreate = [])
    ∧ ((∀ t cfg, ctor ≠ Ctor.CreateWithTransport t cfg) →
        (runOps (construct env0 ctor).handle inst0 steps).1.TransportHandle = NULL) := by
  obtain ⟨hh, hth, hshared, hprivate⟩ := construct_success env0 ctor inst0 hi
  obtain ⟨ftr, -⟩ := runOps_frame (construct env0 ctor).handle steps inst0
  have key : ∀ t cfg, ctor = Ctor.CreateWithTransport t cfg →
      (runOps (construct env0 ctor).handle inst0 steps).1 = inst0
      ∧ (runOps (construct env0 ctor).handle inst0 steps).2.filter isThreadCreate = [] := by
    intro t cfg hc
    obtain ⟨e1, e2⟩ := hshared t cfg hc
    exact runOps_settled _ steps inst0 (Or.inl (by rw [e1]; exact e2))
  refine ⟨?_, ?_, ?_⟩
  · by_cases ht : inst0.TransportHandle = NULL
    · exact Or.inl (by rw [ftr]; exact ht)
    · cases ctor with
      | Create config => exact absurd (hprivate (by simp)) ht
      | CreateFromConnectionString cs protocol => exact absurd (hprivate (by simp)) ht
      | CreateWithTransport t cfg =>
        obtain ⟨k1, -⟩ := key t cfg rfl
        exact Or.inr (by rw [k1]; exact hth)
  · intro t cfg hc
    obtain ⟨e1, e2⟩ := hshared t cfg hc
    obtain ⟨k1, k2⟩ := key t cfg hc
    refine ⟨by rw [k1]; exact e1, e2, by rw [k1]; exact hth, k2, ?_⟩
    intro env op hop hlock
    rw [k1] at hlock ⊢
    have hne : inst0.TransportHandle ≠ NULL := by rw [e1]; exact e2
    constructor
    · rw [runOp_transport_start env _ inst0 op hh hne hlock hop, e1]
    · exact ((runOp_frame env _ inst0 op).2.2.2 (Or.inl hne)).2
  · intro hp
    rw [ftr]
    exact hprivate hp

theorem thread_or_transport_never_both_witness :
    (construct envOK (Ctor.CreateWithTransport 40 (some sampleConfig))).inst
        = some { sampleShared with StopThread := 5, blobThreadsToBeJoined := 6 }
    ∧ Exclusive (runOps (construct envOK (Ctor.CreateWithTransport 40 (some sampleConfig))).handle
        { sampleShared with StopThread := 5, blobThreadsToBeJoined := 6 }
        [(envOK, Op.SendEventAsync 1 2 3), (envOK, Op.SetMessageCallback 4 5)]).1 :=
  ⟨by decide,
    (thread_or_transport_never_both envOK (Ctor.CreateWithTransport 40 (some sampleConfig))
      { sampleShared with StopThread := 5, blobThreadsToBeJoined := 6 }
      [(envOK, Op.SendEventAsync 1 2 3), (envOK, Op.SetMessageCallback 4 5)] (by decide)).1⟩

/-! ## Teardown -/

/-- C8: on every non-NULL instance (private thread or shared transport, never
both), whatever Lock returns, IoTHubClient_Destroy calls IoTHubClient_LL_Destroy
exactly once, on the instance's lower-layer handle, and frees the instance
exactly once, as its last effect; when the instance has a worker thread the
calls are exactly Lock, the store of 1 to StopThread, IoTHubClient_LL_Destroy,
Unlock, ThreadAPI_Join on that thread, Lock_Deinit, free, in this order. -/
theorem destroy_stops_joins_and_frees (env : Env) (h : Nat) (inst : IOTHUB_CLIENT_INSTANCE)
    (hh : h ≠ NULL) (hex : Exclusive inst) :
    (IoTHubClient_Destroy env h inst).filter isLLCall
        = [Event.IoTHubClient_LL_Destroy inst.IoTHubClientLLHandle]
    ∧ (IoTHubClient_Destroy env h inst).filter isFree = [Event.free h]
    ∧ (IoTHubClient_Destroy env h inst).getLast? = some (Event.free h)
    ∧ (inst.ThreadHandle ≠ NULL →
        IoTHubClient_Destroy env h inst
          = [Event.Lock inst.LockHandle (env.Lock inst.LockHandle),
             Event.StoreStopThread 1,
             Event.IoTHubClient_LL_Destroy inst.IoTHubClientLLHandle,
             Event.Unlock inst.LockHandle,
             Event.ThreadAPI_Join inst.ThreadHandle,
             Event.Lock_Deinit inst.LockHandle,
             Event.free h])
    ∧ (inst.ThreadHandle = NULL →
        (IoTHubClient_Destroy env h inst).filter isThreadJoin = []) := by
  have hh0 : ¬ h = 0 := hh
  have hlast : ∀ (t : List Event) (e : Event), (t ++ [e]).getLast? = some e := by
    intro t e
    rw [List.getLast?_append]
    simp
  unfold IoTHubClient_Destroy
  dsimp only
  refine ⟨?_, ?_, ?_, ?_, ?_⟩
  · simp only [hh, ne_eq, not_false_eq_true, if_true]
    split_ifs <;> simp [isLLCall]
  · simp only [hh, ne_eq, not_false_eq_true, if_true]
    split_ifs <;> simp [isFree]
  · simp only [hh, ne_eq, not_false_eq_true, if_true]
    exact hlast _ _
  · intro hth
    have hth0 : ¬ inst.ThreadHandle = 0 := hth
    have ht : inst.TransportHandle = 0 := by
      rcases hex with h1 | h1
      · exact h1
      · exact absurd h1 hth
    simp [hh0, hth0, ht]
  · intro hth
    have hth0 : inst.ThreadHandle = 0 := hth
    simp only [hh, ne_eq, not_false_eq_true, if_true]
    split_ifs <;> simp_all [isThreadJoin]

theorem destroy_stops_joins_and_frees_witness :
    (100 : Nat) ≠ NULL ∧ Exclusive sampleRunning
    ∧ IoTHubClient_Destroy envLockFails 100 sampleRunning
        = [Event.Lock 7 (LOCK_other 1), Event.StoreStopThread 1,
           Event.IoTHubClient_LL_Destroy 11, Event.Unlock 7, Event.ThreadAPI_Join 55,
           Event.Lock_Deinit 7, Event.free 100] :=
  ⟨by decide, by decide,
    (destroy_stops_joins_and_frees envLockFails 100 sampleRunning (by decide)
      (by decide)).2.2.2.1 (by decide)⟩

/-- C9: on every non-NULL instance IoTHubClient_Destroy calls Lock_Deinit, once
and on the instance's lock, exactly when TransportHandle is NULL; when the
instance is attached to a shared transport it never calls Lock_Deinit, it calls
IoTHubTransport_SignalEndWorkerThread once and IoTHubTransport_JoinWorkerThread
once exactly when that returned true, and it touches no private thread when
ThreadHandle is NULL. -/
theorem destroy_keeps_shared_lock (env : Env) (h : Nat) (inst : IOTHUB_CLIENT_INSTANCE)
    (hh : h ≠ NULL) :
    (IoTHubClient_Destroy env h inst).filter isLockDeinit
        = (if inst.TransportHandle = NULL then [Event.Lock_Deinit inst.LockHandle] else [])
    ∧ (inst.TransportHandle ≠ NULL →
        (IoTHubClient_Destroy env h inst).filter isTransportStopJoin
          = Event.IoTHubTransport_SignalEndWorkerThread inst.TransportHandle h
            :: (if env.IoTHubTransport_SignalEndWorkerThread inst.TransportHandle h = true
                then [Event.IoTHubTransport_JoinWorkerThread inst.TransportHandle h]
                else []))
    ∧ (inst.TransportHandle ≠ NULL → inst.ThreadHandle = NULL →
        IoTHubClient_Destroy env h inst
          = [Event.Lock inst.LockHandle (env.Lock inst.LockHandle),
             Event.IoTHubTransport_SignalEndWorkerThread inst.TransportHandle h,
             Event.IoTHubClient_LL_Destroy inst.IoTHubClientLLHandle,
             Event.Unlock inst.LockHandle]
            ++ (if env.IoTHubTransport_SignalEndWorkerThread inst.TransportHandle h = true
                then [Event.IoTHubTransport_JoinWorkerThread inst.TransportHandle h]
                else [])
            ++ [Event.free h])
    ∧ (inst.TransportHandle = NULL →
        (IoTHubClient_Destroy env h inst).filter isTransportStopJoin = []) := by
  have hh0 : ¬ h = 0 := hh
  unfold IoTHubClient_Destroy
  dsimp only
  refine ⟨?_, ?_, ?_, ?_⟩
  · simp only [hh, ne_eq, not_false_eq_true, if_true]
    split_ifs <;> simp_all [isLockDeinit]
  · intro ht
    have ht0 : ¬ inst.TransportHandle = 0 := ht
    simp only [hh, ne_eq, not_false_eq_true, if_true]
    split_ifs <;> simp_all [isTransportStopJoin]
  · intro ht hth
    have ht0 : ¬ inst.TransportHandle = 0 := ht
    have hth0 : inst.ThreadHandle = 0 := hth
    simp only [hh, ne_eq, not_false_eq_true, if_true]
    split_ifs <;> simp_all
  · intro ht
    have ht0 : inst.TransportHandle = 0 := ht
    simp only [hh, ne_eq, not_false_eq_true, if_true]
    split_ifs <;> simp_all [isTransportStopJoin]

theorem destroy_keeps_shared_lock_witness :
    (100 : Nat) ≠ NULL
    ∧ (IoTHubClient_Destroy envOK 100 sampleShared).filter isLockDeinit = []
    ∧ (IoTHubClient_Destroy envOK 100 samplePrivate).filter isLockDeinit
        = [Event.Lock_Deinit 7] :=
  ⟨by decide, (destroy_keeps_shared_lock envOK 100 sampleShared (by decide)).1,
    (destroy_keeps_shared_lock envOK 100 samplePrivate (by decide)).1⟩

/-! ## Lock discipline around lower-layer calls -/

theorem lockProtected_append (lock : Nat) (xs ys : List Event) (held : Bool) :
    lockProtected lock held (xs ++ ys)
      = (lockProtected lock held xs && lockProtected lock (heldAfter lock held xs) ys) := by
  induction xs generalizing held with
  | nil => simp [lockProtected, heldAfter]
  | cons e es ih =>
    cases e <;> simp [lockProtected, heldAfter, ih, Bool.and_assoc]

/-- One pass of the worker loop keeps the discipline and ends with the lock
released. -/
theorem ScheduleWork_iteration_protected (env : Env) (inst : IOTHUB_CLIENT_INSTANCE) :
    lockProtected inst.LockHandle false (ScheduleWork_iteration env inst).1 = true
    ∧ heldAfter inst.LockHandle false (ScheduleWork_iteration env inst).1 = false := by
  unfold ScheduleWork_iteration
  dsimp only
  split_ifs with h1 h2
  · simp [lockProtected, heldAfter]
  · simp [lockProtected, heldAfter, isLLCall, h1]
  · simp [lockProtected, heldAfter, isLLCall, h1]

theorem ScheduleWork_Thread_protected (inst : IOTHUB_CLIENT_INSTANCE)
    (schedule : List (Env × Int)) :
    lockProtected inst.LockHandle false (ScheduleWork_Thread inst schedule).1 = true := by
  induction schedule with
  | nil => simp [ScheduleWork_Thread, lockProtected]
  | cons x xs ih =>
    obtain ⟨env, stop⟩ := x
    obtain ⟨p1, p2⟩ := ScheduleWork_iteration_protected env { inst with StopThread := stop }
    simp only [ScheduleWork_Thread]
    split_ifs
    · exact p1
    · have p1' : lockProtected inst.LockHandle false
          (ScheduleWork_iteration env { inst with StopThread := stop }).1 = true := p1
      have p2' : heldAfter inst.LockHandle false
          (ScheduleWork_iteration env { inst with StopThread := stop }).1 = false := p2
      simp only [lockProtected_append, p1', p2', ih, Bool.and_self]

/-- `StartWorkerThreadIfNeeded` makes no lock and no lower-layer call, so it
neither breaks the discipline nor changes who holds the lock. -/
theorem StartWorkerThreadIfNeeded_protected (env : Env) (self lock : Nat)
    (inst : IOTHUB_CLIENT_INSTANCE) (held : Bool) :
    lockProtected lock held (StartWorkerThreadIfNeeded env self inst).trace = true
    ∧ heldAfter lock held (StartWorkerThreadIfNeeded env self inst).trace = held := by
  unfold StartWorkerThreadIfNeeded
  dsimp only
  split_ifs <;> simp [lockProtected, heldAfter, isLLCall]

theorem runOp_protected (env : Env) (h : Nat) (inst : IOTHUB_CLIENT_INSTANCE) (op : Op) :
    lockProtected inst.LockHandle false (runOp env h inst op).trace = true := by
  obtain ⟨-, flock, -, -, -⟩ := StartWorkerThreadIfNeeded_frame env h inst
  have hs := fun held => StartWorkerThreadIfNeeded_protected env h inst.LockHandle inst held
  cases op with
  | SendEventAsync m cb ctx =>
    simp only [runOp, IoTHubClient_SendEventAsync]
    split_ifs with h1 h2 h3
    · simp [lockProtected]
    · simp [lockProtected]
    · have h2' : env.Lock inst.LockHandle = LOCK_OK := by simpa using h2
      simp [lockProtected, lockProtected_append, h2', hs, flock]
    · have h2' : env.Lock inst.LockHandle = LOCK_OK := by simpa using h2
      simp [lockProtected, lockProtected_append, h2', hs, flock, isLLCall]
  | SetMessageCallback cb ctx =>
    simp only [runOp, IoTHubClient_SetMessageCallback]
    split_ifs with h1 h2 h3
    · simp [lockProtected]
    · simp [lockProtected]
    · have h2' : env.Lock inst.LockHandle = LOCK_OK := by simpa using h2
      simp [lockProtected, lockProtected_append, h2', hs, flock]
    · have h2' : env.Lock inst.LockHandle = LOCK_OK := by simpa using h2
      simp [lockProtected, lockProtected_append, h2', hs, flock, isLLCall]
  | GetSendStatus p =>
    simp only [runOp, IoTHubClient_GetSendStatus]
    split_ifs with h1 h2
    · simp [lockProtected]
    · simp [lockProtected]
    · have h2' : env.Lock inst.LockHandle = LOCK_OK := by simpa using h2
      simp [lockProtected, h2', isLLCall]
  | GetLastMessageReceiveTime p =>
    simp only [runOp, IoTHubClient_GetLastMessageReceiveTime]
    split_ifs with h1 h2
    · simp [lockProtected]
    · simp [lockProtected]
    · have h2' : env.Lock inst.LockHandle = LOCK_OK := by simpa using h2
      simp [lockProtected, h2', isLLCall]
  | SetOption name value =>
    simp only [runOp, IoTHubClient_SetOption]
    split_ifs with h1 h2
    · simp [lockProtected]
    · simp [lockProtected]
    · have h2' : env.Lock inst.LockHandle = LOCK_OK := by simpa using h2
      simp [lockProtected, h2', isLLCall]

/-- C10 (as stated, refuted): when Lock fails, IoTHubClient_Destroy still calls
IoTHubClient_LL_Destroy, so that call is made without the lock held. -/
theorem destroy_calls_lower_layer_without_lock :
    lockProtected samplePrivate.LockHandle false
        (IoTHubClient_Destroy envLockFails 100 samplePrivate) = false
    ∧ IoTHubClient_Destroy envLockFails 100 samplePrivate
        = [Event.Lock 7 (LOCK_other 1), Event.IoTHubClient_LL_Destroy 11, Event.Unlock 7,
           Event.Lock_Deinit 7, Event.free 100] := by
  decide

/-- C10 (amended): every lower-layer call made by the five delegating operations
and by the worker loop happens after a Lock on the instance's lock returned
LOCK_OK and before the matching Unlock, for every outcome of Lock.
IoTHubClient_Destroy calls IoTHubClient_LL_Destroy after its Lock call and
before its Unlock call whatever Lock returned: under the lock when Lock
returned LOCK_OK, and without it when Lock failed. -/
theorem lower_layer_calls_under_lock (env : Env) (h : Nat) (inst : IOTHUB_CLIENT_INSTANCE)
    (op : Op) (schedule : List (Env × Int)) :
    lockProtected inst.LockHandle false (runOp env h inst op).trace = true
    ∧ lockProtected inst.LockHandle false (ScheduleWork_Thread inst schedule).1 = true
    ∧ (env.Lock inst.LockHandle = LOCK_OK →
        lockProtected inst.LockHandle false (IoTHubClient_Destroy env h inst) = true)
    ∧ (h ≠ NULL → ∃ signal joins : List Event,
        IoTHubClient_Destroy env h inst
          = [Event.Lock inst.LockHandle (env.Lock inst.LockHandle)] ++ signal
            ++ [Event.IoTHubClient_LL_Destroy inst.IoTHubClientLLHandle,
                Event.Unlock inst.LockHandle]
            ++ joins
        ∧ signal.filter isLLCall = [] ∧ signal.filter isUnlock = []
        ∧ joins.filter isLLCall = []) := by
  refine ⟨runOp_protected env h inst op, ScheduleWork_Thread_protected inst schedule, ?_, ?_⟩
  · intro hlock
    unfold IoTHubClient_Destroy
    dsimp only
    split_ifs <;> simp [lockProtected, hlock, isLLCall]
  · intro hh
    have hh0 : ¬ h = 0 := hh
    by_cases hth : inst.ThreadHandle = 0 <;> by_cases ht : inst.TransportHandle = 0
    · refine ⟨[], [Event.Lock_Deinit inst.LockHandle, Event.free h], ?_⟩
      simp [IoTHubClient_Destroy, hh0, hth, ht, isLLCall, isUnlock]
    · refine ⟨[Event.IoTHubTransport_SignalEndWorkerThread inst.TransportHandle h],
        (if env.IoTHubTransport_SignalEndWorkerThread inst.TransportHandle h = true
          then [Event.IoTHubTransport_JoinWorkerThread inst.TransportHandle h] else [])
          ++ [Event.free h], ?_⟩
      simp only [IoTHubClient_Destroy]
      split_ifs <;> simp_all [isLLCall, isUnlock]
    · refine ⟨[Event.StoreStopThread 1],
        [Event.ThreadAPI_Join inst.ThreadHandle, Event.Lock_Deinit inst.LockHandle,
         Event.free h], ?_⟩
      simp [IoTHubClient_Destroy, hh0, hth, ht, isLLCall, isUnlock]
    · refine ⟨[Event.StoreStopThread 1,
          Event.IoTHubTransport_SignalEndWorkerThread inst.TransportHandle h],
        (if env.IoTHubTransport_SignalEndWorkerThread inst.TransportHandle h = true
          then [Event.ThreadAPI_Join inst.ThreadHandle,
                Event.IoTHubTransport_JoinWorkerThread inst.TransportHandle h] else [])
          ++ [Event.free h], ?_⟩
      simp only [IoTHubClient_Destroy]
      split_ifs <;> simp_all [isLLCall, isUnlock]

theorem lower_layer_calls_under_lock_witness :
    envOK.Lock sampleRunning.LockHandle = LOCK_OK
    ∧ lockProtected sampleRunning.LockHandle false
        (IoTHubClient_Destroy envOK 100 sampleRunning) = true :=
  ⟨by decide,
    (lower_layer_calls_under_lock envOK 100 sampleRunning (Op.GetSendStatus 1) []).2.2.1
      (by decide)⟩

/-! ## Constructor failure paths -/

/-- The failure paths of `IoTHubClient_CreateFromConnectionString` with valid
arguments, step by step, and that there is no other way to get NULL. -/
theorem CreateFromConnectionString_failures (env : Env) (cs : String) (protocol : Nat)
    (hp : protocol ≠ NULL) :
    (env.malloc.1 = NULL →
      IoTHubClient_CreateFromConnectionString env (some cs) protocol
        = ⟨NULL, none, [Event.malloc NULL]⟩)
    ∧ (env.malloc.1 ≠ NULL → env.Lock_Init = NULL →
      IoTHubClient_CreateFromConnectionString env (some cs) protocol
        = ⟨NULL, none, [Event.malloc env.malloc.1, Event.Lock_Init NULL,
                        Event.free env.malloc.1]⟩)
    ∧ (env.malloc.1 ≠ NULL → env.Lock_Init ≠ NULL →
      env.IoTHubClient_LL_CreateFromConnectionString cs protocol = NULL →
      IoTHubClient_CreateFromConnectionString env (some cs) protocol
        = ⟨NULL, none, [Event.malloc env.malloc.1, Event.Lock_Init env.Lock_Init,
                        Event.IoTHubClient_LL_CreateFromConnectionString cs protocol,
                        Event.Lock_Deinit env.Lock_Init, Event.free env.malloc.1]⟩)
    ∧ ((IoTHubClient_CreateFromConnectionString env (some cs) protocol).handle = NULL →
      env.malloc.1 = NULL ∨ env.Lock_Init = NULL
        ∨ env.IoTHubClient_LL_CreateFromConnectionString cs protocol = NULL) := by
  have hp0 : ¬ protocol = 0 := hp
  unfold IoTHubClient_CreateFromConnectionString
  dsimp only
  refine ⟨?_, ?_, ?_, ?_⟩
  · intro hm
    simp [hp0, hm]
  · intro hm hl
    have hm0 : ¬ env.malloc.1 = 0 := hm
    simp [hp0, hm0, hl]
  · intro hm hl hll
    have hm0 : ¬ env.malloc.1 = 0 := hm
    have hl0 : ¬ env.Lock_Init = 0 := hl
    simp [hp0, hm0, hl0, hll]
  · intro hnull
    by_cases hm : env.malloc.1 = 0
    · exact Or.inl hm
    · by_cases hl : env.Lock_Init = 0
      · exact Or.inr (Or.inl hl)
      · by_cases hll : env.IoTHubClient_LL_CreateFromConnectionString cs protocol = 0
        · exact Or.inr (Or.inr hll)
        · simp [hp0, hm, hl, hll] at hnull

/-- The failure paths of `IoTHubClient_Create`, step by step, and that there is
no other way to get NULL. -/
theorem Create_failures (env : Env) (config : Option IOTHUB_CLIENT_CONFIG) :
    (env.malloc.1 = NULL →
      IoTHubClient_Create env config = ⟨NULL, none, [Event.malloc NULL]⟩)
    ∧ (env.malloc.1 ≠ NULL → env.Lock_Init = NULL →
      IoTHubClient_Create env config
        = ⟨NULL, none, [Event.malloc env.malloc.1, Event.Lock_Init NULL,
                        Event.free env.malloc.1]⟩)
    ∧ (env.malloc.1 ≠ NULL → env.Lock_Init ≠ NULL →
      env.IoTHubClient_LL_Create config = NULL →
      IoTHubClient_Create env config
        = ⟨NULL, none, [Event.malloc env.malloc.1, Event.Lock_Init env.Lock_Init,
                        Event.IoTHubClient_LL_Create config,
                        Event.Lock_Deinit env.Lock_Init, Event.free env.malloc.1]⟩)
    ∧ ((IoTHubClient_Create env config).handle = NULL →
      env.malloc.1 = NULL ∨ env.Lock_Init = NULL
        ∨ env.IoTHubClient_LL_Create config = NULL) := by
  unfold IoTHubClient_Create
  dsimp only
  refine ⟨?_, ?_, ?_, ?_⟩
  · intro hm
    simp [hm]
  · intro hm hl
    have hm0 : ¬ env.malloc.1 = 0 := hm
    simp [hm0, hl]
  · intro hm hl hll
    have hm0 : ¬ env.malloc.1 = 0 := hm
    have hl0 : ¬ env.Lock_Init = 0 := hl
    simp [hm0, hl0, hll]
  · intro hnull
    by_cases hm : env.malloc.1 = 0
    · exact Or.inl hm
    · by_cases hl : env.Lock_Init = 0
      · exact Or.inr (Or.inl hl)
      · by_cases hll : env.IoTHubClient_LL_Create config = 0
        · exact Or.inr (Or.inr hll)
        · simp [hm, hl, hll] at hnull

/-- The failure paths of `IoTHubClient_CreateWithTransport` with valid
arguments, step by step, and that there is no other way to get NULL. -/
theorem CreateWithTransport_failures (env : Env) (t : Nat) (cfg : IOTHUB_CLIENT_CONFIG)
    (ht : t ≠ NULL) :
    (env.malloc.1 = NULL →
      IoTHubClient_CreateWithTransport env t (some cfg) = ⟨NULL, none, [Event.malloc NULL]⟩)
    ∧ (env.malloc.1 ≠ NULL → env.IoTHubTransport_GetLock t = NULL →
      IoTHubClient_CreateWithTransport env t (some cfg)
        = ⟨NULL, none, [Event.malloc env.malloc.1, Event.IoTHubTransport_GetLock t,
                        Event.free env.malloc.1]⟩)
    ∧ (env.malloc.1 ≠ NULL → env.IoTHubTransport_GetLock t ≠ NULL →
      env.IoTHubTransport_GetLLTransport t = NULL →
      IoTHubClient_CreateWithTransport env t (some cfg)
        = ⟨NULL, none, [Event.malloc env.malloc.1, Event.IoTHubTransport_GetLock t,
                        Event.IoTHubTransport_GetLLTransport t, Event.free env.malloc.1]⟩)
    ∧ (env.malloc.1 ≠ NULL → env.IoTHubTransport_GetLock t ≠ NULL →
      env.IoTHubTransport_GetLLTransport t ≠ NULL →
      env.Lock (env.IoTHubTransport_GetLock t) ≠ LOCK_OK →
      IoTHubClient_CreateWithTransport env t (some cfg)
        = ⟨NULL, none, [Event.malloc env.malloc.1, Event.IoTHubTransport_GetLock t,
                        Event.IoTHubTransport_GetLLTransport t,
                        Event.Lock (env.IoTHubTransport_GetLock t)
                          (env.Lock (env.IoTHubTransport_GetLock t)),
                        Event.free env.malloc.1]⟩)
    ∧ (env.malloc.1 ≠ NULL → env.IoTHubTransport_GetLock t ≠ NULL →
      env.IoTHubTransport_GetLLTransport t ≠ NULL →
      env.Lock (env.IoTHubTransport_GetLock t) = LOCK_OK →
      env.IoTHubClient_LL_CreateWithTransport
          (deviceConfigFor cfg (env.IoTHubTransport_GetLLTransport t)) = NULL →
      IoTHubClient_CreateWithTransport env t (some cfg)
        = ⟨NULL, none, [Event.malloc env.malloc.1, Event.IoTHubTransport_GetLock t,
                        Event.IoTHubTransport_GetLLTransport t,
                        Event.Lock (env.IoTHubTransport_GetLock t) LOCK_OK,
                        Event.IoTHubClient_LL_CreateWithTransport
                          (deviceConfigFor cfg (env.IoTHubTransport_GetLLTransport t)),
                        Event.free env.malloc.1,
                        Event.Unlock (env.IoTHubTransport_GetLock t)]⟩)
    ∧ ((IoTHubClient_CreateWithTransport env t (some cfg)).handle = NULL →
      env.malloc.1 = NULL ∨ env.IoTHubTransport_GetLock t = NULL
        ∨ env.IoTHubTransport_GetLLTransport t = NULL
        ∨ env.Lock (env.IoTHubTransport_GetLock t) ≠ LOCK_OK
        ∨ env.IoTHubClient_LL_CreateWithTransport
            (deviceConfigFor cfg (env.IoTHubTransport_GetLLTransport t)) = NULL) := by
  have ht0 : ¬ t = 0 := ht
  unfold IoTHubClient_CreateWithTransport deviceConfigFor
  dsimp only
  refine ⟨?_, ?_, ?_, ?_, ?_, ?_⟩
  · intro hm
    simp [ht0, hm]
  · intro hm hl
    have hm0 : ¬ env.malloc.1 = 0 := hm
    simp [ht0, hm0, hl]
  · intro hm hl hllt
    have hm0 : ¬ env.malloc.1 = 0 := hm
    have hl0 : ¬ env.IoTHubTransport_GetLock t = 0 := hl
    simp [ht0, hm0, hl0, hllt]
  · intro hm hl hllt hlock
    have hm0 : ¬ env.malloc.1 = 0 := hm
    have hl0 : ¬ env.IoTHubTransport_GetLock t = 0 := hl
    have hllt0 : ¬ env.IoTHubTransport_GetLLTransport t = 0 := hllt
    simp [ht0, hm0, hl0, hllt0, hlock]
  · intro hm hl hllt hlock hll
    have hm0 : ¬ env.malloc.1 = 0 := hm
    have hl0 : ¬ env.IoTHubTransport_GetLock t = 0 := hl
    have hllt0 : ¬ env.IoTHubTransport_GetLLTransport t = 0 := hllt
    simp [ht0, hm0, hl0, hllt0, hlock, hll]
  · intro hnull
    by_cases hm : env.malloc.1 = 0
    · exact Or.inl hm
    · by_cases hl : env.IoTHubTransport_GetLock t = 0
      · exact Or.inr (Or.inl hl)
      · by_cases hllt : env.IoTHubTransport_GetLLTransport t = 0
        · exact Or.inr (Or.inr (Or.inl hllt))
        · by_cases hlock : env.Lock (env.IoTHubTransport_GetLock t) = LOCK_OK
          · right; right; right; right
            by_contra hll
            simp [ht0, hm, hl, hllt, hlock, hll] at hnull
          · exact Or.inr (Or.inr (Or.inr (Or.inl hlock)))

/-- C11: on every failure path of the three constructors after argument
validation the constructor returns NULL with no live cell, and its calls are
exactly the construction steps up to the failing one followed by the clean-up:
nothing when malloc fails; free of the cell, once, when Lock_Init,
IoTHubTransport_GetLock, IoTHubTransport_GetLLTransport or Lock fails;
Lock_Deinit of the lock made by Lock_Init, once, and then free when a plain
lower-layer constructor fails; free and then Unlock of the transport lock,
never Lock_Deinit, when IoTHubClient_LL_CreateWithTransport fails.  These are
all the ways a constructor with valid arguments returns NULL. -/
theorem constructor_failure_paths (env : Env) (cs : String) (protocol t : Nat)
    (config : Option IOTHUB_CLIENT_CONFIG) (cfg : IOTHUB_CLIENT_CONFIG)
    (hp : protocol ≠ NULL) (ht : t ≠ NULL) :
    ((env.malloc.1 = NULL →
        IoTHubClient_CreateFromConnectionString env (some cs) protocol
          = ⟨NULL, none, [Event.malloc NULL]⟩)
      ∧ (env.malloc.1 ≠ NULL → env.Lock_Init = NULL →
        IoTHubClient_CreateFromConnectionString env (some cs) protocol
          = ⟨NULL, none, [Event.malloc env.malloc.1, Event.Lock_Init NULL,
                          Event.free env.malloc.1]⟩)
      ∧ (env.malloc.1 ≠ NULL → env.Lock_Init ≠ NULL →
        env.IoTHubClient_LL_CreateFromConnectionString cs protocol = NULL →
        IoTHubClient_CreateFromConnectionString env (some cs) protocol
          = ⟨NULL, none, [Event.malloc env.malloc.1, Event.Lock_Init env.Lock_Init,
                          Event.IoTHubClient_LL_CreateFromConnectionString cs protocol,
                          Event.Lock_Deinit env.Lock_Init, Event.free env.malloc.1]⟩)
      ∧ ((IoTHubClient_CreateFromConnectionString env (some cs) protocol).handle = NULL →
        env.malloc.1 = NULL ∨ env.Lock_Init = NULL
          ∨ env.IoTHubClient_LL_CreateFromConnectionString cs protocol = NULL))
    ∧ ((env.malloc.1 = NULL →
        IoTHubClient_Create env config = ⟨NULL, none, [Event.malloc NULL]⟩)
      ∧ (env.malloc.1 ≠ NULL → env.Lock_Init = NULL →
        IoTHubClient_Create env config
          = ⟨NULL, none, [Event.malloc env.malloc.1, Event.Lock_Init NULL,
                          Event.free env.malloc.1]⟩)
      ∧ (env.malloc.1 ≠ NULL → env.Lock_Init ≠ NULL →
        env.IoTHubClient_LL_Create config = NULL →
        IoTHubClient_Create env config
          = ⟨NULL, none, [Event.malloc env.malloc.1, Event.Lock_Init env.Lock_Init,
                          Event.IoTHubClient_LL_Create config,
                          Event.Lock_Deinit env.Lock_Init, Event.free env.malloc.1]⟩)
      ∧ ((IoTHubClient_Create env config).handle = NULL →
        env.malloc.1 = NULL ∨ env.Lock_Init = NULL
          ∨ env.IoTHubClient_LL_Create config = NULL))
    ∧ ((env.malloc.1 = NULL →
        IoTHubClient_CreateWithTransport env t (some cfg) = ⟨NULL, none, [Event.malloc NULL]⟩)
      ∧ (env.malloc.1 ≠ NULL → env.IoTHubTransport_GetLock t = NULL →
        IoTHubClient_CreateWithTransport env t (some cfg)
          = ⟨NULL, none, [Event.malloc env.malloc.1, Event.IoTHubTransport_GetLock t,
                          Event.free env.malloc.1]⟩)
      ∧ (env.malloc.1 ≠ NULL → env.IoTHubTransport_GetLock t ≠ NULL →
        env.IoTHubTransport_GetLLTransport t = NULL →
        IoTHubClient_CreateWithTransport env t (some cfg)
          = ⟨NULL, none, [Event.malloc env.malloc.1, Event.IoTHubTransport_GetLock t,
                          Event.IoTHubTransport_GetLLTransport t, Event.free env.malloc.1]⟩)
      ∧ (env.malloc.1 ≠ NULL → env.IoTHubTransport_GetLock t ≠ NULL →
        env.IoTHubTransport_GetLLTransport t ≠ NULL →
        env.Lock (env.IoTHubTransport_GetLock t) ≠ LOCK_OK →
        IoTHubClient_CreateWithTransport env t (some cfg)
          = ⟨NULL, none, [Event.malloc env.malloc.1, Event.IoTHubTransport_GetLock t,
                          Event.IoTHubTransport_GetLLTransport t,
                          Event.Lock (env.IoTHubTransport_GetLock t)
                            (env.Lock (env.IoTHubTransport_GetLock t)),
                          Event.free env.malloc.1]⟩)
      ∧ (env.malloc.1 ≠ NULL → env.IoTHubTransport_GetLock t ≠ NULL →
        env.IoTHubTransport_GetLLTransport t ≠ NULL →
        env.Lock (env.IoTHubTransport_GetLock t) = LOCK_OK →
        env.IoTHubClient_LL_CreateWithTransport
            (deviceConfigFor cfg (env.IoTHubTransport_GetLLTransport t)) = NULL →
        IoTHubClient_CreateWithTransport env t (some cfg)
          = ⟨NULL, none, [Event.malloc env.malloc.1, Event.IoTHubTransport_GetLock t,
                          Event.IoTHubTransport_GetLLTransport t,
                          Event.Lock (env.IoTHubTransport_GetLock t) LOCK_OK,
                          Event.IoTHubClient_LL_CreateWithTransport
                            (deviceConfigFor cfg (env.IoTHubTransport_GetLLTransport t)),
                          Event.free env.malloc.1,
                          Event.Unlock (env.IoTHubTransport_GetLock t)]⟩)
      ∧ ((IoTHubClient_CreateWithTransport env t (some cfg)).handle = NULL →
        env.malloc.1 = NULL ∨ env.IoTHubTransport_GetLock t = NULL
          ∨ env.IoTHubTransport_GetLLTransport t = NULL
          ∨ env.Lock (env.IoTHubTransport_GetLock t) ≠ LOCK_OK
          ∨ env.IoTHubClient_LL_CreateWithTransport
              (deviceConfigFor cfg (env.IoTHubTransport_GetLLTransport t)) = NULL)) :=
  ⟨CreateFromConnectionString_failures env cs protocol hp, Create_failures env config,
    CreateWithTransport_failures env t cfg ht⟩

theorem constructor_failure_paths_witness :
    (1 : Nat) ≠ NULL ∧ (40 : Nat) ≠ NULL
    ∧ IoTHubClient_CreateWithTransport envLLCreateFails 40 (some sampleConfig)
        = ⟨NULL, none,
            [Event.malloc 100, Event.IoTHubTransport_GetLock 40,
             Event.IoTHubTransport_GetLLTransport 40, Event.Lock 8 LOCK_OK,
             Event.IoTHubClient_LL_CreateWithTransport
               { protocol := 1, transportHandle := 9, deviceId := 2, deviceKey := 3,
                 deviceSasToken := 4 },
             Event.free 100, Event.Unlock 8]⟩ :=
  ⟨by decide, by decide,
    (constructor_failure_paths envLLCreateFails "HostName=hub" 1 40 none sampleConfig
      (by decide) (by decide)).2.2.2.2.2.2.1 (by decide) (by decide) (by decide) (by decide)
      (by decide)⟩

/-! ## The worker loop -/

/-- The worker thread returns exactly when some iteration of its schedule holds
the lock and sees the stop flag, and then it returns 0. -/
theorem ScheduleWork_Thread_exit (inst : IOTHUB_CLIENT_INSTANCE)
    (schedule : List (Env × Int)) :
    ((ScheduleWork_Thread inst schedule).2 = some 0 ↔ ∃ s ∈ schedule, stopsWorker inst s)
    ∧ ((ScheduleWork_Thread inst schedule).2 = none ↔ ∀ s ∈ schedule, ¬ stopsWorker inst s) := by
  induction schedule with
  | nil => simp [ScheduleWork_Thread]
  | cons x xs ih =>
    obtain ⟨env, stop⟩ := x
    obtain ⟨ih1, ih2⟩ := ih
    simp only [ScheduleWork_Thread, ScheduleWork_iteration, stopsWorker]
    by_cases hl : env.Lock inst.LockHandle = LOCK_OK
    · by_cases hs : stop = 0
      · simp [hl, hs, ih1, ih2, stopsWorker]
      · simp [hl, hs]
    · simp [hl, ih1, ih2, stopsWorker]

/-- C12: one iteration of the worker loop depends on the collaborators only
through the result of Lock, and on the cell only through the lock handle, the
lower-layer handle and StopThread.  Lock acquired and StopThread set: Lock,
Unlock, nothing else, and the thread returns 0.  Lock acquired and StopThread
clear: Lock, IoTHubClient_LL_DoWork on the lower-layer handle, Unlock,
ThreadAPI_Sleep(1), and the loop goes on.  Lock failed: Lock, ThreadAPI_Sleep(1),
whatever StopThread holds, and the loop goes on.  So an iteration leaves the
loop exactly when it holds the lock and sees the flag, the thread returns
exactly when its schedule has such an iteration, and no iteration with the
flag set calls IoTHubClient_LL_DoWork. -/
theorem worker_loop_iteration (env : Env) (inst : IOTHUB_CLIENT_INSTANCE)
    (later : List (Env × Int)) :
    (∀ (env2 : Env) (transport thread blob : Nat),
        env2.Lock inst.LockHandle = env.Lock inst.LockHandle →
        ScheduleWork_iteration env2
            { inst with TransportHandle := transport, ThreadHandle := thread,
                        blobThreadsToBeJoined := blob }
          = ScheduleWork_iteration env inst)
    ∧ (env.Lock inst.LockHandle = LOCK_OK → inst.StopThread ≠ 0 →
        ScheduleWork_iteration env inst
          = ([Event.Lock inst.LockHandle LOCK_OK, Event.Unlock inst.LockHandle], true)
        ∧ ScheduleWork_Thread inst ((env, inst.StopThread) :: later)
          = ([Event.Lock inst.LockHandle LOCK_OK, Event.Unlock inst.LockHandle], some 0))
    ∧ (env.Lock inst.LockHandle = LOCK_OK → inst.StopThread = 0 →
        ScheduleWork_iteration env inst
          = ([Event.Lock inst.LockHandle LOCK_OK,
              Event.IoTHubClient_LL_DoWork inst.IoTHubClientLLHandle,
              Event.Unlock inst.LockHandle, Event.ThreadAPI_Sleep 1], false)
        ∧ ScheduleWork_Thread inst ((env, inst.StopThread) :: later)
          = ([Event.Lock inst.LockHandle LOCK_OK,
              Event.IoTHubClient_LL_DoWork inst.IoTHubClientLLHandle,
              Event.Unlock inst.LockHandle, Event.ThreadAPI_Sleep 1]
                ++ (ScheduleWork_Thread inst later).1,
             (ScheduleWork_Thread inst later).2))
    ∧ (env.Lock inst.LockHandle ≠ LOCK_OK → ∀ stop : Int,
        ScheduleWork_iteration env { inst with StopThread := stop }
          = ([Event.Lock inst.LockHandle (env.Lock inst.LockHandle),
              Event.ThreadAPI_Sleep 1], false)
        ∧ ScheduleWork_Thread inst ((env, stop) :: later)
          = ([Event.Lock inst.LockHandle (env.Lock inst.LockHandle),
              Event.ThreadAPI_Sleep 1] ++ (ScheduleWork_Thread inst later).1,
             (ScheduleWork_Thread inst later).2))
    ∧ ((ScheduleWork_iteration env inst).2 = true
        ↔ env.Lock inst.LockHandle = LOCK_OK ∧ inst.StopThread ≠ 0)
    ∧ (inst.StopThread ≠ 0 → (ScheduleWork_iteration env inst).1.filter isDoWork = [])
    ∧ ((ScheduleWork_Thread inst later).2 = some 0 ↔ ∃ s ∈ later, stopsWorker inst s)
    ∧ ((ScheduleWork_Thread inst later).2 = none ↔ ∀ s ∈ later, ¬ stopsWorker inst s) := by
  refine ⟨?_, ?_, ?_, ?_, ?_, ?_, (ScheduleWork_Thread_exit inst later).1,
    (ScheduleWork_Thread_exit inst later).2⟩
  · intro env2 transport thread blob h2
    simp [ScheduleWork_iteration, h2]
  · intro hl hs
    simp [ScheduleWork_Thread, ScheduleWork_iteration, hl, hs]
  · intro hl hs
    simp [ScheduleWork_Thread, ScheduleWork_iteration, hl, hs]
  · intro hl stop
    simp [ScheduleWork_Thread, ScheduleWork_iteration, hl]
  · by_cases hl : env.Lock inst.LockHandle = LOCK_OK <;>
      by_cases hs : inst.StopThread = 0 <;>
      simp [ScheduleWork_iteration, hl, hs]
  · intro hs
    by_cases hl : env.Lock inst.LockHandle = LOCK_OK <;>
      simp [ScheduleWork_iteration, hl, hs, isDoWork]

theorem worker_loop_iteration_witness :
    envOK.Lock sampleStopping.LockHandle = LOCK_OK ∧ sampleStopping.StopThread ≠ 0
    ∧ ScheduleWork_Thread sampleStopping [(envOK, 1), (envOK, 0)]
        = ([Event.Lock 7 LOCK_OK, Event.Unlock 7], some 0)
    ∧ ScheduleWork_Thread sampleStopping [(envLockFails, 1), (envOK, 0), (envOK, 1)]
        = ([Event.Lock 7 (LOCK_other 1), Event.ThreadAPI_Sleep 1,
            Event.Lock 7 LOCK_OK, Event.IoTHubClient_LL_DoWork 11, Event.Unlock 7,
            Event.ThreadAPI_Sleep 1,
            Event.Lock 7 LOCK_OK, Event.Unlock 7], some 0) :=
  ⟨by decide, by decide,
    ((worker_loop_iteration envOK sampleStopping [(envOK, 0)]).2.1 (by decide)
      (by decide)).2,
    by decide⟩

/-! ## Lock balance -/

theorem quiet_calls (l : List Event) (hq : ∀ e ∈ l, quiet e = true) :
    l.filter isUnlock = [] ∧ l.filter isLockCall = [] ∧ l.filterMap acquired = []
    ∧ ∀ (lock : Nat) (held : Bool), heldAfter lock held l = held := by
  induction l with
  | nil => simp [heldAfter]
  | cons e es ih =>
    obtain ⟨i1, i2, i3, i4⟩ := ih (fun x hx => hq x (by simp [hx]))
    have he := hq e (by simp)
    clear ih hq
    cases e <;> first
      | (simp [quiet, isLockCall, isUnlock] at he; done)
      | (refine ⟨?_, ?_, ?_, ?_⟩ <;>
          simp [List.filter_cons, List.filterMap_cons, isUnlock, isLockCall, acquired,
            heldAfter, i1, i2, i3, i4])

theorem heldAfter_append (lock : Nat) (xs ys : List Event) (held : Bool) :
    heldAfter lock held (xs ++ ys) = heldAfter lock (heldAfter lock held xs) ys := by
  induction xs generalizing held with
  | nil => simp [heldAfter]
  | cons e es ih =>
    cases e <;> simp [heldAfter, ih]

/-- Calls without any `Lock` or `Unlock` are balanced. -/
theorem lockBalanced_quiet (l : List Event) (hq : ∀ e ∈ l, quiet e = true) :
    LockBalanced l := by
  obtain ⟨q1, q2, q3, q4⟩ := quiet_calls l hq
  refine ⟨by rw [q1, q3]; rfl, by rw [q2]; simp, by rw [q1]; simp, fun lock => q4 lock false⟩

/-- A single failed `Lock` among calls that neither lock nor unlock is balanced. -/
theorem lockBalanced_failed (before after : List Event) (lk : Nat) (r : LOCK_RESULT)
    (hr : r ≠ LOCK_OK) (hb : ∀ e ∈ before, quiet e = true)
    (ha : ∀ e ∈ after, quiet e = true) :
    LockBalanced (before ++ Event.Lock lk r :: after) := by
  obtain ⟨b1, b2, b3, b4⟩ := quiet_calls before hb
  obtain ⟨a1, a2, a3, a4⟩ := quiet_calls after ha
  refine ⟨?_, ?_, ?_, ?_⟩
  · simp [List.filter_append, List.filter_cons, List.filterMap_append, List.filterMap_cons,
      b1, b3, a1, a3, isUnlock, acquired, hr]
  · simp [List.filter_append, List.filter_cons, b2, a2, isLockCall]
  · simp [List.filter_append, List.filter_cons, b1, a1, isUnlock]
  · intro lock
    rw [heldAfter_append, b4]
    simp [heldAfter, a4, hr]

/-- A successful `Lock`, then calls that neither lock nor unlock, then `Unlock`
of the same handle as the last call, is balanced. -/
theorem lockBalanced_bracket (before mid : List Event) (lk : Nat)
    (hb : ∀ e ∈ before, quiet e = true) (hm : ∀ e ∈ mid, quiet e = true) :
    LockBalanced (before ++ Event.Lock lk LOCK_OK :: (mid ++ [Event.Unlock lk])) := by
  obtain ⟨b1, b2, b3, b4⟩ := quiet_calls before hb
  obtain ⟨m1, m2, m3, m4⟩ := quiet_calls mid hm
  have hlast : (before ++ Event.Lock lk LOCK_OK :: (mid ++ [Event.Unlock lk])).getLast?
      = some (Event.Unlock lk) := by
    have : before ++ Event.Lock lk LOCK_OK :: (mid ++ [Event.Unlock lk])
        = (before ++ Event.Lock lk LOCK_OK :: mid) ++ [Event.Unlock lk] := by simp
    rw [this, List.getLast?_append]
    simp
  refine ⟨?_, ?_, ?_, ?_⟩
  · simp [List.filter_append, List.filter_cons, List.filterMap_append, List.filterMap_cons,
      b1, b3, m1, m3, isUnlock, acquired]
  · simp [List.filter_append, List.filter_cons, b2, m2, isLockCall]
  · intro u hu
    rw [hlast]
    simp [List.filter_append, List.filter_cons, b1, m1, isUnlock] at hu
    rw [hu]
  · intro lock
    rw [heldAfter_append, b4]
    simp only [heldAfter]
    rw [heldAfter_append, m4]
    by_cases hlk : lk = lock <;> simp [heldAfter, hlk]

/-- `StartWorkerThreadIfNeeded` neither locks nor unlocks. -/
theorem StartWorkerThreadIfNeeded_quiet (env : Env) (self : Nat)
    (inst : IOTHUB_CLIENT_INSTANCE) :
    ∀ e ∈ (StartWorkerThreadIfNeeded env self inst).trace, quiet e = true := by
  unfold StartWorkerThreadIfNeeded
  dsimp only
  split_ifs <;> simp [quiet, isLockCall, isUnlock]

theorem runOp_lock_balanced (env : Env) (h : Nat) (inst : IOTHUB_CLIENT_INSTANCE) (op : Op) :
    LockBalanced (runOp env h inst op).trace := by
  obtain ⟨-, flock, -, -, -⟩ := StartWorkerThreadIfNeeded_frame env h inst
  have hstart := StartWorkerThreadIfNeeded_quiet env h inst
  have hfail : env.Lock inst.LockHandle ≠ LOCK_OK →
      LockBalanced [Event.Lock inst.LockHandle (env.Lock inst.LockHandle)] := fun hr =>
    lockBalanced_failed [] [] inst.LockHandle _ hr (by simp) (by simp)
  cases op with
  | SendEventAsync m cb ctx =>
    simp only [runOp, IoTHubClient_SendEventAsync]
    split_ifs with h1 h2 h3
    · exact lockBalanced_quiet [] (by simp)
    · exact hfail h2
    · have h2' : env.Lock inst.LockHandle = LOCK_OK := by simpa using h2
      rw [h2', flock]
      exact lockBalanced_bracket [] _ inst.LockHandle (by simp) hstart
    · have h2' : env.Lock inst.LockHandle = LOCK_OK := by simpa using h2
      rw [h2', flock]
      have := lockBalanced_bracket []
        ((StartWorkerThreadIfNeeded env h inst).trace
          ++ [Event.IoTHubClient_LL_SendEventAsync
                (StartWorkerThreadIfNeeded env h inst).inst.IoTHubClientLLHandle m cb ctx])
        inst.LockHandle (by simp)
        (by
          intro e he
          rcases List.mem_append.1 he with he | he
          · exact hstart e he
          · simp at he; subst he; rfl)
      simpa using this
  | SetMessageCallback cb ctx =>
    simp only [runOp, IoTHubClient_SetMessageCallback]
    split_ifs with h1 h2 h3
    · exact lockBalanced_quiet [] (by simp)
    · exact hfail h2
    · have h2' : env.Lock inst.LockHandle = LOCK_OK := by simpa using h2
      rw [h2', flock]
      exact lockBalanced_bracket [] _ inst.LockHandle (by simp) hstart
    · have h2' : env.Lock inst.LockHandle = LOCK_OK := by simpa using h2
      rw [h2', flock]
      have := lockBalanced_bracket []
        ((StartWorkerThreadIfNeeded env h inst).trace
          ++ [Event.IoTHubClient_LL_SetMessageCallback
                (StartWorkerThreadIfNeeded env h inst).inst.IoTHubClientLLHandle cb ctx])
        inst.LockHandle (by simp)
        (by
          intro e he
          rcases List.mem_append.1 he with he | he
          · exact hstart e he
          · simp at he; subst he; rfl)
      simpa using this
  | GetSendStatus p =>
    simp only [runOp, IoTHubClient_GetSendStatus]
    split_ifs with h1 h2
    · exact lockBalanced_quiet [] (by simp)
    · exact hfail h2
    · have h2' : env.Lock inst.LockHandle = LOCK_OK := by simpa using h2
      rw [h2']
      exact lockBalanced_bracket [] [_] inst.LockHandle (by simp)
        (by intro e he; simp at he; subst he; rfl)
  | GetLastMessageReceiveTime p =>
    simp only [runOp, IoTHubClient_GetLastMessageReceiveTime]
    split_ifs with h1 h2
    · exact lockBalanced_quiet [] (by simp)
    · exact hfail h2
    · have h2' : env.Lock inst.LockHandle = LOCK_OK := by simpa using h2
      rw [h2']
      exact lockBalanced_bracket [] [_] inst.LockHandle (by simp)
        (by intro e he; simp at he; subst he; rfl)
  | SetOption name value =>
    simp only [runOp, IoTHubClient_SetOption]
    split_ifs with h1 h2
    · exact lockBalanced_quiet [] (by simp)
    · exact hfail h2
    · have h2' : env.Lock inst.LockHandle = LOCK_OK := by simpa using h2
      rw [h2']
      exact lockBalanced_bracket [] [_] inst.LockHandle (by simp)
        (by intro e he; simp at he; subst he; rfl)

theorem CreateWithTransport_lock_balanced (env : Env) (t : Nat)
    (config : Option IOTHUB_CLIENT_CONFIG) :
    LockBalanced (IoTHubClient_CreateWithTransport env t config).trace := by
  cases config with
  | none => exact lockBalanced_quiet [] (by simp)
  | some cfg =>
    simp only [IoTHubClient_CreateWithTransport]
    split_ifs with h1 h2 h3 h4 h5 h6
    · exact lockBalanced_quiet [] (by simp)
    · exact lockBalanced_quiet _ (by simp [quiet, isLockCall, isUnlock])
    · exact lockBalanced_quiet _ (by simp [quiet, isLockCall, isUnlock])
    · have := lockBalanced_failed
        [Event.malloc env.malloc.1, Event.IoTHubTransport_GetLock t,
         Event.IoTHubTransport_GetLLTransport t]
        [Event.free env.malloc.1] (env.IoTHubTransport_GetLock t)
        (env.Lock (env.IoTHubTransport_GetLock t)) h5
        (by simp [quiet, isLockCall, isUnlock]) (by simp [quiet, isLockCall, isUnlock])
      simpa using this
    · have h5' : env.Lock (env.IoTHubTransport_GetLock t) = LOCK_OK := by simpa using h5
      have := lockBalanced_bracket
        [Event.malloc env.malloc.1, Event.IoTHubTransport_GetLock t,
         Event.IoTHubTransport_GetLLTransport t]
        [Event.IoTHubClient_LL_CreateWithTransport
            (deviceConfigFor cfg (env.IoTHubTransport_GetLLTransport t)),
         Event.free env.malloc.1]
        (env.IoTHubTransport_GetLock t)
        (by simp [quiet, isLockCall, isUnlock]) (by simp [quiet, isLockCall, isUnlock])
      simpa [h5', deviceConfigFor] using this
    · have h5' : env.Lock (env.IoTHubTransport_GetLock t) = LOCK_OK := by simpa using h5
      have := lockBalanced_bracket
        [Event.malloc env.malloc.1, Event.IoTHubTransport_GetLock t,
         Event.IoTHubTransport_GetLLTransport t]
        [Event.IoTHubClient_LL_CreateWithTransport
            (deviceConfigFor cfg (env.IoTHubTransport_GetLLTransport t))]
        (env.IoTHubTransport_GetLock t)
        (by simp [quiet, isLockCall, isUnlock]) (by simp [quiet, isLockCall, isUnlock])
      simpa [h5', deviceConfigFor] using this
    · exact lockBalanced_quiet _ (by simp [quiet, isLockCall, isUnlock])

/-- An operation that takes the lock makes exactly one `Unlock`, on the lock of
the instance and as its last call; one that is refused the lock makes none. -/
theorem runOp_unlock (env : Env) (h : Nat) (inst : IOTHUB_CLIENT_INSTANCE) (op : Op) :
    (h ≠ NULL → (∀ name value, op = Op.SetOption name value → name ≠ NULL ∧ value ≠ NULL) →
      env.Lock inst.LockHandle = LOCK_OK →
        (runOp env h inst op).trace.filter isUnlock = [Event.Unlock inst.LockHandle]
        ∧ (runOp env h inst op).trace.getLast? = some (Event.Unlock inst.LockHandle))
    ∧ (env.Lock inst.LockHandle ≠ LOCK_OK →
        (runOp env h inst op).trace.filter isUnlock = []) := by
  obtain ⟨-, flock, -, -, funlock⟩ := StartWorkerThreadIfNeeded_frame env h inst
  have hlast : ∀ (e u : Event) (l : List Event), (e :: (l ++ [u])).getLast? = some u := by
    intro e u l
    rw [← List.cons_append, List.getLast?_append]
    simp
  have hlast2 : ∀ (e a u : Event) (l : List Event),
      (e :: (l ++ [a, u])).getLast? = some u := by
    intro e a u l
    have : e :: (l ++ [a, u]) = (e :: (l ++ [a])) ++ [u] := by simp
    rw [this, List.getLast?_append]
    simp
  constructor
  · intro hh hargs hlock
    have hh0 : ¬ h = 0 := hh
    cases op with
    | SendEventAsync m cb ctx =>
      simp only [runOp, IoTHubClient_SendEventAsync]
      split_ifs <;> simp_all [isUnlock, hlast, hlast2]
    | SetMessageCallback cb ctx =>
      simp only [runOp, IoTHubClient_SetMessageCallback]
      split_ifs <;> simp_all [isUnlock, hlast, hlast2]
    | GetSendStatus p =>
      simp [runOp, IoTHubClient_GetSendStatus, hh0, hlock, isUnlock]
    | GetLastMessageReceiveTime p =>
      simp [runOp, IoTHubClient_GetLastMessageReceiveTime, hh0, hlock, isUnlock]
    | SetOption name value =>
      obtain ⟨hn, hv⟩ := hargs name value rfl
      have hn0 : ¬ name = 0 := hn
      have hv0 : ¬ value = 0 := hv
      simp [runOp, IoTHubClient_SetOption, hh0, hn0, hv0, hlock, isUnlock]
  · intro hlock
    cases op with
    | SendEventAsync m cb ctx =>
      simp only [runOp, IoTHubClient_SendEventAsync]
      split_ifs <;> simp_all [isUnlock]
    | SetMessageCallback cb ctx =>
      simp only [runOp, IoTHubClient_SetMessageCallback]
      split_ifs <;> simp_all [isUnlock]
    | GetSendStatus p =>
      simp only [runOp, IoTHubClient_GetSendStatus]
      split_ifs <;> simp_all [isUnlock]
    | GetLastMessageReceiveTime p =>
      simp only [runOp, IoTHubClient_GetLastMessageReceiveTime]
      split_ifs <;> simp_all [isUnlock]
    | SetOption name value =>
      simp only [runOp, IoTHubClient_SetOption]
      split_ifs <;> simp_all [isUnlock]

/-- `IoTHubClient_CreateWithTransport` unlocks the transport lock once, as its
last call, when it reached `Lock` and got it; it never unlocks when `Lock` on
the transport lock is refused. -/
theorem CreateWithTransport_unlock (env : Env) (t : Nat)
    (config : Option IOTHUB_CLIENT_CONFIG) :
    (t ≠ NULL → config ≠ none → env.malloc.1 ≠ NULL →
      env.IoTHubTransport_GetLock t ≠ NULL → env.IoTHubTransport_GetLLTransport t ≠ NULL →
      env.Lock (env.IoTHubTransport_GetLock t) = LOCK_OK →
        (IoTHubClient_CreateWithTransport env t config).trace.filter isUnlock
          = [Event.Unlock (env.IoTHubTransport_GetLock t)]
        ∧ (IoTHubClient_CreateWithTransport env t config).trace.getLast?
          = some (Event.Unlock (env.IoTHubTransport_GetLock t)))
    ∧ (env.Lock (env.IoTHubTransport_GetLock t) ≠ LOCK_OK →
        (IoTHubClient_CreateWithTransport env t config).trace.filter isUnlock = []) := by
  cases config with
  | none => simp [IoTHubClient_CreateWithTransport]
  | some cfg =>
    constructor
    · intro ht _ hm hl hllt hlock
      have ht0 : ¬ t = 0 := ht
      have hm0 : ¬ env.malloc.1 = 0 := hm
      have hl0 : ¬ env.IoTHubTransport_GetLock t = 0 := hl
      have hllt0 : ¬ env.IoTHubTransport_GetLLTransport t = 0 := hllt
      simp only [IoTHubClient_CreateWithTransport]
      split_ifs <;> simp_all [isUnlock]
    · intro hlock
      simp only [IoTHubClient_CreateWithTransport]
      split_ifs <;> simp_all [isUnlock]

/-- C13: in each of the five delegating operations and in
IoTHubClient_CreateWithTransport, for all answers of the collaborators, the
calls are lock-balanced: the Unlock calls are exactly one per Lock that
returned LOCK_OK, on the handle that was locked, Lock is called at most once,
the Unlock is the last call (so after any lower-layer call) and no lock is
held on return.  With the lock acquired there is exactly one Unlock, on the
lock of the instance (the transport lock for the constructor); with Lock
refused there is none. -/
theorem lock_balance (env : Env) (h : Nat) (inst : IOTHUB_CLIENT_INSTANCE) (op : Op)
    (t : Nat) (config : Option IOTHUB_CLIENT_CONFIG) :
    LockBalanced (runOp env h inst op).trace
    ∧ LockBalanced (IoTHubClient_CreateWithTransport env t config).trace
    ∧ (h ≠ NULL → (∀ name value, op = Op.SetOption name value → name ≠ NULL ∧ value ≠ NULL) →
      env.Lock inst.LockHandle = LOCK_OK →
        (runOp env h inst op).trace.filter isUnlock = [Event.Unlock inst.LockHandle]
        ∧ (runOp env h inst op).trace.getLast? = some (Event.Unlock inst.LockHandle))
    ∧ (env.Lock inst.LockHandle ≠ LOCK_OK →
        (runOp env h inst op).trace.filter isUnlock = [])
    ∧ (t ≠ NULL → config ≠ none → env.malloc.1 ≠ NULL →
      env.IoTHubTransport_GetLock t ≠ NULL → env.IoTHubTransport_GetLLTransport t ≠ NULL →
      env.Lock (env.IoTHubTransport_GetLock t) = LOCK_OK →
        (IoTHubClient_CreateWithTransport env t config).trace.filter isUnlock
          = [Event.Unlock (env.IoTHubTransport_GetLock t)]
        ∧ (IoTHubClient_CreateWithTransport env t config).trace.getLast?
          = some (Event.Unlock (env.IoTHubTransport_GetLock t)))
    ∧ (env.Lock (env.IoTHubTransport_GetLock t) ≠ LOCK_OK →
        (IoTHubClient_CreateWithTransport env t config).trace.filter isUnlock = []) :=
  ⟨runOp_lock_balanced env h inst op, CreateWithTransport_lock_balanced env t config,
    (runOp_unlock env h inst op).1, (runOp_unlock env h inst op).2,
    (CreateWithTransport_unlock env t config).1, (CreateWithTransport_unlock env t config).2⟩

theorem lock_balance_witness :
    (100 : Nat) ≠ NULL ∧ envStartFails.Lock samplePrivate.LockHandle = LOCK_OK
    ∧ (runOp envStartFails 100 samplePrivate (Op.SendEventAsync 1 2 3)).trace
        = [Event.Lock 7 LOCK_OK, Event.StoreStopThread 0,
           Event.ThreadAPI_Create THREAD_START_FUNC.ScheduleWork_Thread 100,
           Event.Unlock 7]
    ∧ (runOp envStartFails 100 samplePrivate (Op.SendEventAsync 1 2 3)).trace.filter isUnlock
        = [Event.Unlock 7]
    ∧ (IoTHubClient_CreateWithTransport envLLCreateFails 40 (some sampleConfig)).trace.filter
        isUnlock = [Event.Unlock 8] :=
  ⟨by decide, by decide, by decide,
    ((lock_balance envStartFails 100 samplePrivate (Op.SendEventAsync 1 2 3) 40
      (some sampleConfig)).2.2.1 (by decide) (by intro name value hop; cases hop)
      (by decide)).1,
    ((lock_balance envLLCreateFails 100 samplePrivate (Op.SendEventAsync 1 2 3) 40
      (some sampleConfig)).2.2.2.2.1 (by decide) (by simp) (by decide) (by decide)
      (by decide) (by decide)).1⟩

end IoTHubClient
